import Mathlib

/-!
Verification of the Latency-Arbitrage-Simulator repository.

The repository ships two Python scripts:
 - `setup.py`: a constant exchange catalog `EXCHANGE_DATA` plus
   `create_project_structure`, which creates a directory layout and writes
   starter files;
 - `download_glad.py`: `download_glad`, which creates an `external` directory
   tree and prints manual instructions.

This file shallowly embeds the catalog data (each Python dict literal becomes a
list of string-keyed JSON values, in source order) and the filesystem effects of
the two scripts (an explicit filesystem state plus `mkdir` / `open("w")`
primitives with the error behavior of Python), and proves the claimed properties.
The latency model described in the design spec has no implementation in the
source; it is modelled from the spec where needed.
-/

/-- A JSON scalar value as it appears in the catalog dict literals: a string or
a (decimal, hence rational) number. -/
inductive JVal where
  | str (s : String)
  | num (q : ℚ)
deriving DecidableEq

/-- One exchange record: a Python dict literal, kept as its ordered list of
key/value pairs. -/
abbrev Entry := List (String × JVal)

/-- Constant `EXCHANGE_DATA` from `setup.py`: the top-level record with its single
`exchanges` collection, each entry transcribed verbatim (23 entries). -/
structure ExchangeData where
  exchanges : List Entry
deriving DecidableEq

def EXCHANGE_DATA : ExchangeData :=
  { exchanges := [
    [("id", .str "NYSE"), ("name", .str "New York Stock Exchange"), ("lat", .num 40.7069), ("lon", .num (-74.0113)), ("city", .str "New York"), ("type", .str "equity")],
    [("id", .str "NASDAQ"), ("name", .str "NASDAQ"), ("lat", .num 40.7489), ("lon", .num (-73.9680)), ("city", .str "New York"), ("type", .str "equity")],
    [("id", .str "CME"), ("name", .str "Chicago Mercantile Exchange"), ("lat", .num 41.8781), ("lon", .num (-87.6298)), ("city", .str "Chicago"), ("type", .str "derivatives")],
    [("id", .str "LSE"), ("name", .str "London Stock Exchange"), ("lat", .num 51.5149), ("lon", .num (-0.0909)), ("city", .str "London"), ("type", .str "equity")],
    [("id", .str "JPX"), ("name", .str "Japan Exchange Group"), ("lat", .num 35.6762), ("lon", .num 139.6503), ("city", .str "Tokyo"), ("type", .str "equity")],
    [("id", .str "SSE"), ("name", .str "Shanghai Stock Exchange"), ("lat", .num 31.2304), ("lon", .num 121.4737), ("city", .str "Shanghai"), ("type", .str "equity")],
    [("id", .str "HKEX"), ("name", .str "Hong Kong Stock Exchange"), ("lat", .num 22.3193), ("lon", .num 114.1694), ("city", .str "Hong Kong"), ("type", .str "equity")],
    [("id", .str "EUREX"), ("name", .str "Eurex"), ("lat", .num 50.1109), ("lon", .num 8.6821), ("city", .str "Frankfurt"), ("type", .str "derivatives")],
    [("id", .str "TMX"), ("name", .str "TMX Group (Toronto)"), ("lat", .num 43.6532), ("lon", .num (-79.3832)), ("city", .str "Toronto"), ("type", .str "equity")],
    [("id", .str "BSE"), ("name", .str "Bombay Stock Exchange"), ("lat", .num 18.9292), ("lon", .num 72.8333), ("city", .str "Mumbai"), ("type", .str "equity")],
    [("id", .str "KRX"), ("name", .str "Korea Exchange"), ("lat", .num 37.5665), ("lon", .num 126.9780), ("city", .str "Seoul"), ("type", .str "equity")],
    [("id", .str "ASX"), ("name", .str "Australian Securities Exchange"), ("lat", .num (-33.8688)), ("lon", .num 151.2093), ("city", .str "Sydney"), ("type", .str "equity")],
    [("id", .str "BMV"), ("name", .str "Mexican Stock Exchange"), ("lat", .num 19.4326), ("lon", .num (-99.1332)), ("city", .str "Mexico City"), ("type", .str "equity")],
    [("id", .str "B3"), ("name", .str "B3 (Brazil)"), ("lat", .num (-23.5505)), ("lon", .num (-46.6333)), ("city", .str "S\xC3\xA3o Paulo"), ("type", .str "equity")],
    [("id", .str "SIX"), ("name", .str "SIX Swiss Exchange"), ("lat", .num 47.3769), ("lon", .num 8.5417), ("city", .str "Zurich"), ("type", .str "equity")],
    [("id", .str "BINANCE"), ("name", .str "Binance (Virtual)"), ("lat", .num 1.3521), ("lon", .num 103.8198), ("city", .str "Singapore"), ("type", .str "crypto")],
    [("id", .str "COINBASE"), ("name", .str "Coinbase"), ("lat", .num 37.7749), ("lon", .num (-122.4194)), ("city", .str "San Francisco"), ("type", .str "crypto")],
    [("id", .str "KRAKEN"), ("name", .str "Kraken"), ("lat", .num 37.7749), ("lon", .num (-122.4194)), ("city", .str "San Francisco"), ("type", .str "crypto")],
    [("id", .str "BITFINEX"), ("name", .str "Bitfinex"), ("lat", .num 51.5074), ("lon", .num (-0.1278)), ("city", .str "London"), ("type", .str "crypto")],
    [("id", .str "HUOBI"), ("name", .str "Huobi"), ("lat", .num 1.3521), ("lon", .num 103.8198), ("city", .str "Singapore"), ("type", .str "crypto")],
    [("id", .str "FTX"), ("name", .str "FTX (Historical)"), ("lat", .num 25.7617), ("lon", .num (-80.1918)), ("city", .str "Miami"), ("type", .str "crypto")],
    [("id", .str "GEMINI"), ("name", .str "Gemini"), ("lat", .num 40.7128), ("lon", .num (-74.0060)), ("city", .str "New York"), ("type", .str "crypto")],
    [("id", .str "BYBIT"), ("name", .str "Bybit"), ("lat", .num 22.3193), ("lon", .num 114.1694), ("city", .str "Hong Kong"), ("type", .str "crypto")]
  ] }

/-- The value under a given key in an entry (first occurrence), as Python dict
lookup would return it. -/
def lookupField (e : Entry) (k : String) : Option JVal :=
  match e.find? (fun kv => kv.1 = k) with
  | some kv => some kv.2
  | none => none

/-- The `lat` field of an entry, when present and numeric. -/
def latOf (e : Entry) : Option ℚ :=
  match lookupField e "lat" with
  | some (.num q) => some q
  | _ => none

/-- The `lon` field of an entry, when present and numeric. -/
def lonOf (e : Entry) : Option ℚ :=
  match lookupField e "lon" with
  | some (.num q) => some q
  | _ => none

/-- Statement that an optional latitude is present and within [-90, 90]
degrees. -/
def validLat (o : Option ℚ) : Prop :=
  match o with
  | some q => -90 ≤ q ∧ q ≤ 90
  | none => False

/-- Statement that an optional longitude is present and within [-180, 180]
degrees. -/
def validLon (o : Option ℚ) : Prop :=
  match o with
  | some q => -180 ≤ q ∧ q ≤ 180
  | none => False

/-! ## Filesystem model

`setup.py` and `download_glad.py` act on the filesystem through
`Path.mkdir(parents=..., exist_ok=True)` and `open(..., "w")`. We model a
filesystem state explicitly and give those primitives the semantics Python gives them:
`mkdir` with `exist_ok=True` succeeds without change when the directory
exists, raises when the path exists as a file, creates the directory when the
parent exists, and raises `FileNotFoundError` otherwise; `open(p, "w")`
requires the parent directory, refuses a directory path, and truncates or
creates the file. -/

/-- A filesystem path: its list of components, the drive root first. -/
abbrev FsPath := List String

/-- The contents `setup.py` writes, one constructor per in-script template
constant or inline literal: `CMAKE_TEMPLATE`, `MAIN_CPP_TEMPLATE`,
`json.dump(EXCHANGE_DATA, f, indent=4)`, `README_TEMPLATE`,
`json.dump(VSCODE_SETTINGS, f, indent=4)`, the two one-line shader
placeholders, and the `.gitignore` literal. -/
inductive FileContent where
  | cmakeTemplate
  | mainCppTemplate
  | exchangesJson
  | readmeTemplate
  | vscodeSettings
  | vertexShaderStub
  | fragmentShaderStub
  | gitignoreText
deriving DecidableEq, Inhabited

/-- A filesystem state: the existing directories and the files with their
contents, each named by absolute path. -/
structure FS where
  dirs : List FsPath
  files : List (FsPath × FileContent)
deriving DecidableEq

/-- The paths of the existing files. -/
def FS.fileNames (fs : FS) : List FsPath := fs.files.map Prod.fst

/-- Python `Path.mkdir(exist_ok=True)`: no-op if the directory exists, error if the
path is a file, create when the parent exists (a drive root has no parent),
error otherwise. -/
def mkdirExistOk (fs : FS) (p : FsPath) : Option FS :=
  if p ∈ fs.dirs then some fs
  else if p ∈ fs.fileNames then none
  else if p.dropLast = [] ∨ p.dropLast ∈ fs.dirs then
    some { fs with dirs := fs.dirs ++ [p] }
  else none

/-- The nonempty prefixes of a path, shortest first. -/
def prefixesOf (p : FsPath) : List FsPath :=
  (List.range p.length).map (fun i => p.take (i + 1))

/-- Python `Path.mkdir(parents=True, exist_ok=True)`: create every missing prefix in
order. -/
def mkdirParents (fs : FS) (p : FsPath) : Option FS :=
  (prefixesOf p).foldlM mkdirExistOk fs

/-- Python `open(p, "w")` followed by writing `c`: error on a directory path or a
missing parent, otherwise truncate-or-create the file with content `c`. -/
def writeFile (fs : FS) (p : FsPath) (c : FileContent) : Option FS :=
  if p ∈ fs.dirs then none
  else if p.dropLast ∈ fs.dirs then
    if p ∈ fs.fileNames then
      some { fs with files := fs.files.map (fun kv => if kv.1 = p then (p, c) else kv) }
    else
      some { fs with files := fs.files ++ [(p, c)] }
  else none

/-- Constant `PROJECT_ROOT` from both scripts: `D:/Projects/Latency-Arb-Simulator`. -/
def PROJECT_ROOT : FsPath := ["D:", "Projects", "Latency-Arb-Simulator"]

/-- Constant `DIRECTORIES` from `setup.py`. -/
def DIRECTORIES : List String :=
  ["src", "include", "data", "shaders", "build", "docs", "tests"]

/-- Function `create_project_structure` from `setup.py`, as its action on the
filesystem state: create the root (with parents), the seven `DIRECTORIES`,
the `.vscode` directory, and write the eight files in source order.
`os.chdir` and the `print` calls have no filesystem effect. -/
def create_project_structure (fs : FS) : Option FS := do
  let fs ← mkdirParents fs PROJECT_ROOT
  let fs ← DIRECTORIES.foldlM (fun f d => mkdirExistOk f (PROJECT_ROOT ++ [d])) fs
  let fs ← mkdirExistOk fs (PROJECT_ROOT ++ [".vscode"])
  let fs ← writeFile fs (PROJECT_ROOT ++ [".vscode", "settings.json"]) .vscodeSettings
  let fs ← writeFile fs (PROJECT_ROOT ++ ["CMakeLists.txt"]) .cmakeTemplate
  let fs ← writeFile fs (PROJECT_ROOT ++ ["src", "main.cpp"]) .mainCppTemplate
  let fs ← writeFile fs (PROJECT_ROOT ++ ["data", "exchanges.json"]) .exchangesJson
  let fs ← writeFile fs (PROJECT_ROOT ++ ["README.md"]) .readmeTemplate
  let fs ← writeFile fs (PROJECT_ROOT ++ ["shaders", "globe_vertex.glsl"]) .vertexShaderStub
  let fs ← writeFile fs (PROJECT_ROOT ++ ["shaders", "globe_fragment.glsl"]) .fragmentShaderStub
  writeFile fs (PROJECT_ROOT ++ [".gitignore"]) .gitignoreText

/-- The directories `create_project_structure` creates when the project root
is absent, in creation order. -/
def createdDirs : List FsPath :=
  [PROJECT_ROOT,
   PROJECT_ROOT ++ ["src"], PROJECT_ROOT ++ ["include"],
   PROJECT_ROOT ++ ["data"], PROJECT_ROOT ++ ["shaders"],
   PROJECT_ROOT ++ ["build"], PROJECT_ROOT ++ ["docs"],
   PROJECT_ROOT ++ ["tests"], PROJECT_ROOT ++ [".vscode"]]

/-- The files `create_project_structure` writes, with their contents, in
write order. -/
def createdFiles : List (FsPath × FileContent) :=
  [(PROJECT_ROOT ++ [".vscode", "settings.json"], .vscodeSettings),
   (PROJECT_ROOT ++ ["CMakeLists.txt"], .cmakeTemplate),
   (PROJECT_ROOT ++ ["src", "main.cpp"], .mainCppTemplate),
   (PROJECT_ROOT ++ ["data", "exchanges.json"], .exchangesJson),
   (PROJECT_ROOT ++ ["README.md"], .readmeTemplate),
   (PROJECT_ROOT ++ ["shaders", "globe_vertex.glsl"], .vertexShaderStub),
   (PROJECT_ROOT ++ ["shaders", "globe_fragment.glsl"], .fragmentShaderStub),
   (PROJECT_ROOT ++ [".gitignore"], .gitignoreText)]

/-- Constant `GLAD_URL` from `download_glad.py`; the script defines it and computes a
zip path from the `external` directory, but never fetches anything. -/
def GLAD_URL : String :=
  "https://github.com/Dav1dde/glad/archive/refs/heads/master.zip"

/-- Function `download_glad` from `download_glad.py`, as its action on the filesystem
state: it only creates six directories under the project root; `zip_path` is
computed but unused, and the `print` calls have no filesystem effect. -/
def download_glad (fs : FS) : Option FS := do
  let external_dir := PROJECT_ROOT ++ ["external"]
  let fs ← mkdirExistOk fs external_dir
  let _zip_path := external_dir ++ ["glad.zip"]
  let glad_dir := external_dir ++ ["glad"]
  let fs ← mkdirExistOk fs glad_dir
  let include_dir := glad_dir ++ ["include"]
  let fs ← mkdirExistOk fs include_dir
  let fs ← mkdirExistOk fs (include_dir ++ ["glad"])
  let fs ← mkdirExistOk fs (include_dir ++ ["KHR"])
  mkdirExistOk fs (glad_dir ++ ["src"])

/-- The directories `download_glad` creates when absent, in creation order. -/
def gladDirs : List FsPath :=
  [PROJECT_ROOT ++ ["external"],
   PROJECT_ROOT ++ ["external", "glad"],
   PROJECT_ROOT ++ ["external", "glad", "include"],
   PROJECT_ROOT ++ ["external", "glad", "include", "glad"],
   PROJECT_ROOT ++ ["external", "glad", "include", "KHR"],
   PROJECT_ROOT ++ ["external", "glad", "src"]]

/-- Well-formedness of a filesystem state: paths are nonempty, every parent
of a directory or file exists (a drive root has no parent), file paths are
distinct, and no path is both a file and a directory. -/
structure FS.Valid (fs : FS) : Prop where
  dirs_ne : ∀ p ∈ fs.dirs, p ≠ []
  dirs_parent : ∀ p ∈ fs.dirs, p.dropLast = [] ∨ p.dropLast ∈ fs.dirs
  files_parent : ∀ q ∈ fs.fileNames, q.dropLast ∈ fs.dirs
  files_nodup : fs.fileNames.Nodup
  files_not_dirs : ∀ q ∈ fs.fileNames, q ∉ fs.dirs

/-! ## Latency model (not implemented in the source)

The spec describes a Latency Model whose implementation does not exist in the
repository snapshot; the definitions below are modelled from the spec. -/

/-- Modelled from the spec: an `ExchangeNode` record
`{id, display name, latitude, longitude (decimal degrees), venue type}`;
identity by id. The Latency Model itself is missing from the source. -/
structure ExchangeNode where
  id : String
  name : String
  lat : ℝ
  lon : ℝ
  venue : String

/-- Modelled from the spec: the registry snapshot owning all nodes. -/
abbrev Registry := List ExchangeNode

/-- Modelled from the spec: a node is registered when its id is in the
registry snapshot (identity by id). -/
def registered (reg : Registry) (a : ExchangeNode) : Prop :=
  a.id ∈ reg.map ExchangeNode.id

instance (reg : Registry) (a : ExchangeNode) : Decidable (registered reg a) :=
  inferInstanceAs (Decidable (a.id ∈ reg.map ExchangeNode.id))

/-- Modelled from the spec: the configuration surface of the Latency Model, a
propagation speed (km/s, default speed of light in fiber) and a
path-inefficiency multiplier (> 1). -/
structure LatencyConfig where
  propagationSpeedKmPerSec : ℝ
  inefficiencyFactor : ℝ

/-- Modelled from the spec: the error raised on a query with a node absent
from the registry snapshot. -/
inductive LatencyError where
  | invalidNodeError
deriving DecidableEq

/-- Modelled from the spec: great-circle distance in km between two
(lat, lon) points in decimal degrees, via the haversine formula on a sphere
of radius 6371 km. -/
noncomputable def haversineDistanceKm (lat1 lon1 lat2 lon2 : ℝ) : ℝ :=
  2 * 6371 * Real.arcsin (Real.sqrt (
    Real.sin ((lat2 - lat1) * Real.pi / 180 / 2) ^ 2 +
    Real.cos (lat1 * Real.pi / 180) * Real.cos (lat2 * Real.pi / 180) *
      Real.sin ((lon2 - lon1) * Real.pi / 180 / 2) ^ 2))

/-- Modelled from the spec: `latency(a, b, config) -> microseconds`. It fails
with `InvalidNodeError` when either node is absent from the registry
snapshot, returns zero on same-node queries, and otherwise converts the
haversine distance to time with the configured speed and inefficiency
multiplier. Pure in its inputs and config. -/
noncomputable def latency (reg : Registry) (cfg : LatencyConfig)
    (a b : ExchangeNode) : Except LatencyError ℝ :=
  if registered reg a ∧ registered reg b then
    if a.id = b.id then .ok 0
    else .ok (haversineDistanceKm a.lat a.lon b.lat b.lon *
      cfg.inefficiencyFactor / cfg.propagationSpeedKmPerSec * 1000000)
  else .error .invalidNodeError

/-- C1: every exchange entry persisted to `data/exchanges.json` (the
`exchanges` collection of `EXCHANGE_DATA`, written verbatim via `json.dump`)
has exactly the six fields `id`, `name`, `lat`, `lon`, `city`, `type`: no
field of this set is missing and no other field is present. -/
theorem catalog_entries_have_exactly_six_fields :
    ∀ e ∈ EXCHANGE_DATA.exchanges,
      e.map Prod.fst = ["id", "name", "lat", "lon", "city", "type"] := by
  decide

/-- Witness for C1 at the first catalog entry. -/
theorem catalog_entries_have_exactly_six_fields_witness :
    ([("id", JVal.str "NYSE"), ("name", JVal.str "New York Stock Exchange"),
      ("lat", JVal.num 40.7069), ("lon", JVal.num (-74.0113)),
      ("city", JVal.str "New York"), ("type", JVal.str "equity")] : Entry).map
        Prod.fst = ["id", "name", "lat", "lon", "city", "type"] :=
  catalog_entries_have_exactly_six_fields _ (List.mem_cons_self _ _)

/-- C2: the `id` field is unique across the shipped catalog: entries at two
distinct positions of `EXCHANGE_DATA.exchanges` carry different id values. -/
theorem catalog_ids_unique :
    (EXCHANGE_DATA.exchanges.map (fun e => lookupField e "id")).Pairwise
      (· ≠ ·) := by
  decide

/-- C3: every entry of the shipped catalog has a `type` field that is one of
the three venue types `equity`, `derivatives`, `crypto`. -/
theorem catalog_types_are_known_venue_types :
    ∀ e ∈ EXCHANGE_DATA.exchanges,
      lookupField e "type" ∈
        [some (JVal.str "equity"), some (JVal.str "derivatives"),
         some (JVal.str "crypto")] := by
  decide

/-- Witness for C3 at the first catalog entry. -/
theorem catalog_types_are_known_venue_types_witness :
    lookupField [("id", JVal.str "NYSE"),
      ("name", JVal.str "New York Stock Exchange"), ("lat", JVal.num 40.7069),
      ("lon", JVal.num (-74.0113)), ("city", JVal.str "New York"),
      ("type", JVal.str "equity")] "type" ∈
      [some (JVal.str "equity"), some (JVal.str "derivatives"),
       some (JVal.str "crypto")] :=
  catalog_types_are_known_venue_types _ (List.mem_cons_self _ _)

/-- C8: every entry of the shipped catalog carries geographically valid
decimal-degree coordinates: `lat` lies in [-90, 90] and `lon` lies in
[-180, 180]. -/
theorem catalog_coordinates_geographically_valid :
    ∀ e ∈ EXCHANGE_DATA.exchanges,
      validLat (latOf e) ∧ validLon (lonOf e) := by
  intro e he
  fin_cases he <;>
    exact ⟨⟨by norm_num, by norm_num⟩, ⟨by norm_num, by norm_num⟩⟩

/-- Witness for C8 at the first catalog entry. -/
theorem catalog_coordinates_geographically_valid_witness :
    validLat (latOf [("id", JVal.str "NYSE"),
        ("name", JVal.str "New York Stock Exchange"),
        ("lat", JVal.num 40.7069), ("lon", JVal.num (-74.0113)),
        ("city", JVal.str "New York"), ("type", JVal.str "equity")]) ∧
      validLon (lonOf [("id", JVal.str "NYSE"),
        ("name", JVal.str "New York Stock Exchange"),
        ("lat", JVal.num 40.7069), ("lon", JVal.num (-74.0113)),
        ("city", JVal.str "New York"), ("type", JVal.str "equity")]) :=
  catalog_coordinates_geographically_valid _ (List.mem_cons_self _ _)

/-- C9: the shipped catalog contains two entries at distinct positions with
different ids but identical (lat, lon) coordinates (COINBASE and KRAKEN), so
coincident coordinates for distinct nodes are a reachable input of any
latency or distance computation over the seed data. -/
theorem catalog_has_distinct_ids_with_identical_coordinates :
    ∃ i j : Fin EXCHANGE_DATA.exchanges.length,
      i ≠ j ∧
      lookupField (EXCHANGE_DATA.exchanges.get i) "id" ≠
        lookupField (EXCHANGE_DATA.exchanges.get j) "id" ∧
      latOf (EXCHANGE_DATA.exchanges.get i) =
        latOf (EXCHANGE_DATA.exchanges.get j) ∧
      lonOf (EXCHANGE_DATA.exchanges.get i) =
        lonOf (EXCHANGE_DATA.exchanges.get j) := by
  refine ⟨⟨16, by decide⟩, ⟨17, by decide⟩, by decide, ?_, rfl, rfl⟩
  decide

/-- Helper: the haversine distance is commutative in its two points. -/
theorem haversineDistanceKm_comm (lat1 lon1 lat2 lon2 : ℝ) :
    haversineDistanceKm lat1 lon1 lat2 lon2 =
      haversineDistanceKm lat2 lon2 lat1 lon1 := by
  unfold haversineDistanceKm
  have h1 : ∀ x y : ℝ,
      Real.sin ((x - y) * Real.pi / 180 / 2) ^ 2 =
        Real.sin ((y - x) * Real.pi / 180 / 2) ^ 2 := by
    intro x y
    have hx : (x - y) * Real.pi / 180 / 2 = -((y - x) * Real.pi / 180 / 2) := by
      ring
    rw [hx, Real.sin_neg]
    ring
  rw [h1 lat2 lat1, h1 lon2 lon1,
    mul_comm (Real.cos (lat1 * Real.pi / 180)) (Real.cos (lat2 * Real.pi / 180))]

/-- C6: the latency function of the Latency Model is symmetric: for every pair of
registered exchange nodes and every configuration,
`latency(a, b) = latency(b, a)`. -/
theorem latency_symmetric (reg : Registry) (cfg : LatencyConfig)
    (a b : ExchangeNode) (ha : registered reg a) (hb : registered reg b) :
    latency reg cfg a b = latency reg cfg b a := by
  unfold latency
  rw [if_pos (show registered reg a ∧ registered reg b from ⟨ha, hb⟩),
    if_pos (show registered reg b ∧ registered reg a from ⟨hb, ha⟩)]
  by_cases h : a.id = b.id
  · rw [if_pos h, if_pos h.symm]
  · rw [if_neg h, if_neg (Ne.symm h), haversineDistanceKm_comm]

/-- Witness for C6 on a two-node registry. -/
theorem latency_symmetric_witness :
    latency
      [⟨"NYSE", "New York Stock Exchange", 40.7069, -74.0113, "equity"⟩,
       ⟨"LSE", "London Stock Exchange", 51.5149, -0.0909, "equity"⟩]
      ⟨200000, 1.5⟩
      ⟨"NYSE", "New York Stock Exchange", 40.7069, -74.0113, "equity"⟩
      ⟨"LSE", "London Stock Exchange", 51.5149, -0.0909, "equity"⟩ =
    latency
      [⟨"NYSE", "New York Stock Exchange", 40.7069, -74.0113, "equity"⟩,
       ⟨"LSE", "London Stock Exchange", 51.5149, -0.0909, "equity"⟩]
      ⟨200000, 1.5⟩
      ⟨"LSE", "London Stock Exchange", 51.5149, -0.0909, "equity"⟩
      ⟨"NYSE", "New York Stock Exchange", 40.7069, -74.0113, "equity"⟩ :=
  latency_symmetric _ _ _ _ (by simp [registered]) (by simp [registered])

/-- C7: the latency function of the Latency Model returns zero on same-node
queries: for every registered node `a` and every configuration,
`latency(a, a) = 0`. -/
theorem latency_same_node_zero (reg : Registry) (cfg : LatencyConfig)
    (a : ExchangeNode) (ha : registered reg a) :
    latency reg cfg a a = .ok 0 := by
  unfold latency
  rw [if_pos (show registered reg a ∧ registered reg a from ⟨ha, ha⟩),
    if_pos (show a.id = a.id from rfl)]

/-- Witness for C7 on a one-node registry. -/
theorem latency_same_node_zero_witness :
    latency [⟨"NYSE", "New York Stock Exchange", 40.7069, -74.0113, "equity"⟩]
      ⟨200000, 1.5⟩
      ⟨"NYSE", "New York Stock Exchange", 40.7069, -74.0113, "equity"⟩
      ⟨"NYSE", "New York Stock Exchange", 40.7069, -74.0113, "equity"⟩ =
    .ok 0 :=
  latency_same_node_zero _ _ _ (by simp [registered])

/-- Helper: rewriting a key that no pair carries leaves the file list
unchanged. -/
theorem map_replace_of_not_mem {l : List (FsPath × FileContent)} {p : FsPath}
    {c : FileContent} (h : ∀ kv ∈ l, kv.1 ≠ p) :
    l.map (fun kv => if kv.1 = p then (p, c) else kv) = l := by
  induction l with
  | nil => rfl
  | cons kv t ih =>
    rw [List.map_cons, if_neg (h kv (List.mem_cons_self kv t)),
      ih (fun x hx => h x (List.mem_cons_of_mem kv hx))]

/-- Helper: rewriting a present key with its present value leaves the file
list unchanged, when keys are distinct. -/
theorem map_replace_self {l : List (FsPath × FileContent)} {p : FsPath}
    {c : FileContent} (hmem : (p, c) ∈ l) (hnd : (l.map Prod.fst).Nodup) :
    l.map (fun kv => if kv.1 = p then (p, c) else kv) = l := by
  induction l with
  | nil => cases hmem
  | cons kv t ih =>
    have h' := List.nodup_cons.mp
      (show (kv.1 :: t.map Prod.fst).Nodup by rw [← List.map_cons]; exact hnd)
    rcases List.mem_cons.mp hmem with h | h
    · have hkv1 : kv.1 = p := by rw [← h]
      have hrepl : t.map (fun x => if x.1 = p then (p, c) else x) = t :=
        map_replace_of_not_mem (fun x hx hxp =>
          h'.1 (hkv1 ▸ hxp ▸ List.mem_map.mpr ⟨x, hx, rfl⟩))
      rw [List.map_cons, if_pos hkv1, hrepl, h]
    · have hp_mem : p ∈ t.map Prod.fst := List.mem_map.mpr ⟨(p, c), h, rfl⟩
      have hkv1 : kv.1 ≠ p := fun hq => h'.1 (hq ▸ hp_mem)
      rw [List.map_cons, if_neg hkv1, ih h h'.2]

/-- Helper: `mkdir(exist_ok=True)` on an existing directory is a no-op. -/
theorem mkdirExistOk_present {fs : FS} {p : FsPath} (h : p ∈ fs.dirs) :
    mkdirExistOk fs p = some fs := by
  unfold mkdirExistOk
  rw [if_pos h]

/-- Helper: `mkdir(exist_ok=True)` on a missing path whose parent exists
appends the directory. -/
theorem mkdirExistOk_fresh {fs : FS} {p : FsPath} (h1 : p ∉ fs.dirs)
    (h2 : p ∉ fs.fileNames) (h3 : p.dropLast = [] ∨ p.dropLast ∈ fs.dirs) :
    mkdirExistOk fs p = some { fs with dirs := fs.dirs ++ [p] } := by
  unfold mkdirExistOk
  rw [if_neg h1, if_neg h2, if_pos h3]

/-- Helper: writing a missing file whose parent directory exists appends the
file. -/
theorem writeFile_fresh {fs : FS} {p : FsPath} {c : FileContent}
    (h1 : p ∉ fs.dirs) (h2 : p.dropLast ∈ fs.dirs) (h3 : p ∉ fs.fileNames) :
    writeFile fs p c = some { fs with files := fs.files ++ [(p, c)] } := by
  unfold writeFile
  rw [if_neg h1, if_pos h2, if_neg h3]

/-- Helper: rewriting an existing file with its existing content is a no-op
when file paths are distinct. -/
theorem writeFile_same {fs : FS} {p : FsPath} {c : FileContent}
    (h1 : p ∉ fs.dirs) (h2 : p.dropLast ∈ fs.dirs) (h3 : (p, c) ∈ fs.files)
    (h4 : fs.fileNames.Nodup) :
    writeFile fs p c = some fs := by
  unfold writeFile
  have hmem : p ∈ fs.fileNames := List.mem_map.mpr ⟨(p, c), h3, rfl⟩
  rw [if_neg h1, if_pos h2, if_pos hmem, map_replace_self h3 h4]

/-- Helper: a strict prefix of a path is still a prefix of its parent. -/
theorem prefix_dropLast_of_ne {r p : FsPath} (hpre : r <+: p) (hne : p ≠ r) :
    r <+: p.dropLast := by
  obtain ⟨t, rfl⟩ := hpre
  have ht : t ≠ [] := fun h => hne (by simp [h])
  rw [List.dropLast_append_of_ne_nil r ht]
  exact List.prefix_append r t.dropLast

/-- Helper: in a valid filesystem, when a path is absent as a directory, so
is every path extending it. -/
theorem not_dir_under_absent {fs : FS} (hV : fs.Valid) {r : FsPath}
    (hr : r ∉ fs.dirs) (hrne : r ≠ []) :
    ∀ n p, p.length ≤ n → r <+: p → p ∉ fs.dirs := by
  intro n
  induction n with
  | zero =>
    intro p hlen hpre _
    have hp0 : p = [] := List.eq_nil_of_length_eq_zero (Nat.le_zero.mp hlen)
    exact hrne (List.prefix_nil.mp (hp0 ▸ hpre))
  | succ n ih =>
    intro p hlen hpre hp
    by_cases heq : p = r
    · exact hr (heq ▸ hp)
    · rcases hV.dirs_parent p hp with h0 | h0
      · have hlt : r.length < p.length := by
          rcases Nat.lt_or_ge r.length p.length with h | h
          · exact h
          · exact absurd (hpre.eq_of_length (Nat.le_antisymm hpre.length_le h)).symm heq
        have hp1 : p.length ≤ 1 := by
          have := congrArg List.length h0
          simp [List.length_dropLast] at this
          omega
        have : r = [] := List.eq_nil_of_length_eq_zero (by omega)
        exact hrne this
      · exact ih p.dropLast (by simp [List.length_dropLast]; omega)
          (prefix_dropLast_of_ne hpre heq) h0

/-- Helper: in a valid filesystem, when a path is absent both as a directory
and as a file, every path extending it is absent as a file. -/
theorem not_file_under_absent {fs : FS} (hV : fs.Valid) {r : FsPath}
    (hr : r ∉ fs.dirs) (hrne : r ≠ []) (hrf : r ∉ fs.fileNames) :
    ∀ q, r <+: q → q ∉ fs.fileNames := by
  intro q hpre hq
  by_cases heq : q = r
  · exact hrf (heq ▸ hq)
  · exact not_dir_under_absent hV hr hrne q.dropLast.length q.dropLast le_rfl
      (prefix_dropLast_of_ne hpre heq) (hV.files_parent q hq)

/-- Helper: membership in an appended list fails when it fails on both
parts. -/
theorem not_mem_append_of {α : Type} {a : α} {l1 l2 : List α}
    (h1 : a ∉ l1) (h2 : a ∉ l2) : a ∉ l1 ++ l2 :=
  fun h => (List.mem_append.mp h).elim h1 h2

/-- Helper: the file names of a state with appended files. -/
theorem fileNames_mk_append (ds : List FsPath)
    (l1 l2 : List (FsPath × FileContent)) :
    (FS.mk ds (l1 ++ l2)).fileNames = l1.map Prod.fst ++ l2.map Prod.fst := by
  simp [FS.fileNames]

/-- Helper: full characterization of `create_project_structure` on a valid
filesystem whose `D:` and `D:/Projects` ancestors exist and whose project
root is absent: it succeeds and appends exactly `createdDirs` and
`createdFiles`. -/
theorem create_project_structure_run {fs : FS} (hV : fs.Valid)
    (hD : ["D:"] ∈ fs.dirs) (hDP : ["D:", "Projects"] ∈ fs.dirs)
    (hR : PROJECT_ROOT ∉ fs.dirs) (hRf : PROJECT_ROOT ∉ fs.fileNames) :
    create_project_structure fs =
      some { dirs := fs.dirs ++ createdDirs, files := fs.files ++ createdFiles } := by
  have hnd : ∀ p : FsPath, PROJECT_ROOT <+: p → p ∉ fs.dirs := fun p hp =>
    not_dir_under_absent hV hR (by decide) p.length p le_rfl hp
  have hnf : ∀ q : FsPath, PROJECT_ROOT <+: q → q ∉ fs.fileNames :=
    not_file_under_absent hV hR (by decide) hRf
  have e0 : mkdirParents fs PROJECT_ROOT =
      some (FS.mk (fs.dirs ++ [PROJECT_ROOT]) fs.files) := by
    have s1 : mkdirExistOk fs ["D:"] = some fs := mkdirExistOk_present hD
    have s2 : mkdirExistOk fs ["D:", "Projects"] = some fs :=
      mkdirExistOk_present hDP
    have s3 : mkdirExistOk fs PROJECT_ROOT =
        some (FS.mk (fs.dirs ++ [PROJECT_ROOT]) fs.files) :=
      mkdirExistOk_fresh hR hRf (Or.inr hDP)
    simp only [mkdirParents,
      show prefixesOf PROJECT_ROOT = [["D:"], ["D:", "Projects"], PROJECT_ROOT]
        from rfl,
      List.foldlM_cons, List.foldlM_nil, s1, s2, s3,
      Option.bind_eq_bind, Option.some_bind, Option.pure_def]
  have e1 : mkdirExistOk (FS.mk (fs.dirs ++ [PROJECT_ROOT]) fs.files) (PROJECT_ROOT ++ ["src"]) =
      some (FS.mk (fs.dirs ++ [PROJECT_ROOT] ++ [(PROJECT_ROOT ++ ["src"])]) fs.files) :=
    mkdirExistOk_fresh
      (by
        simp only [FS.dirs, List.mem_append, List.mem_singleton, not_or]
        exact ⟨hnd _ (List.prefix_append _ _), by decide⟩)
      (hnf _ (List.prefix_append _ _))
      (Or.inr (by
        rw [show ((PROJECT_ROOT ++ ["src"]) : FsPath).dropLast = PROJECT_ROOT from rfl]
        simp))
  have e2 : mkdirExistOk (FS.mk (fs.dirs ++ [PROJECT_ROOT] ++ [(PROJECT_ROOT ++ ["src"])]) fs.files) (PROJECT_ROOT ++ ["include"]) =
      some (FS.mk (fs.dirs ++ [PROJECT_ROOT] ++ [(PROJECT_ROOT ++ ["src"])] ++ [(PROJECT_ROOT ++ ["include"])]) fs.files) :=
    mkdirExistOk_fresh
      (by
        simp only [FS.dirs, List.mem_append, List.mem_singleton, not_or]
        exact ⟨⟨hnd _ (List.prefix_append _ _), by decide⟩, by decide⟩)
      (hnf _ (List.prefix_append _ _))
      (Or.inr (by
        rw [show ((PROJECT_ROOT ++ ["include"]) : FsPath).dropLast = PROJECT_ROOT from rfl]
        simp))
  have e3 : mkdirExistOk (FS.mk (fs.dirs ++ [PROJECT_ROOT] ++ [(PROJECT_ROOT ++ ["src"])] ++ [(PROJECT_ROOT ++ ["include"])]) fs.files) (PROJECT_ROOT ++ ["data"]) =
      some (FS.mk (fs.dirs ++ [PROJECT_ROOT] ++ [(PROJECT_ROOT ++ ["src"])] ++ [(PROJECT_ROOT ++ ["include"])] ++ [(PROJECT_ROOT ++ ["data"])]) fs.files) :=
    mkdirExistOk_fresh
      (by
        simp only [FS.dirs, List.mem_append, List.mem_singleton, not_or]
        exact ⟨⟨⟨hnd _ (List.prefix_append _ _), by decide⟩, by decide⟩, by decide⟩)
      (hnf _ (List.prefix_append _ _))
      (Or.inr (by
        rw [show ((PROJECT_ROOT ++ ["data"]) : FsPath).dropLast = PROJECT_ROOT from rfl]
        simp))
  have e4 : mkdirExistOk (FS.mk (fs.dirs ++ [PROJECT_ROOT] ++ [(PROJECT_ROOT ++ ["src"])] ++ [(PROJECT_ROOT ++ ["include"])] ++ [(PROJECT_ROOT ++ ["data"])]) fs.files) (PROJECT_ROOT ++ ["shaders"]) =
      some (FS.mk (fs.dirs ++ [PROJECT_ROOT] ++ [(PROJECT_ROOT ++ ["src"])] ++ [(PROJECT_ROOT ++ ["include"])] ++ [(PROJECT_ROOT ++ ["data"])] ++ [(PROJECT_ROOT ++ ["shaders"])]) fs.files) :=
    mkdirExistOk_fresh
      (by
        simp only [FS.dirs, List.mem_append, List.mem_singleton, not_or]
        exact ⟨⟨⟨⟨hnd _ (List.prefix_append _ _), by decide⟩, by decide⟩, by decide⟩, by decide⟩)
      (hnf _ (List.prefix_append _ _))
      (Or.inr (by
        rw [show ((PROJECT_ROOT ++ ["shaders"]) : FsPath).dropLast = PROJECT_ROOT from rfl]
        simp))
  have e5 : mkdirExistOk (FS.mk (fs.dirs ++ [PROJECT_ROOT] ++ [(PROJECT_ROOT ++ ["src"])] ++ [(PROJECT_ROOT ++ ["include"])] ++ [(PROJECT_ROOT ++ ["data"])] ++ [(PROJECT_ROOT ++ ["shaders"])]) fs.files) (PROJECT_ROOT ++ ["build"]) =
      some (FS.mk (fs.dirs ++ [PROJECT_ROOT] ++ [(PROJECT_ROOT ++ ["src"])] ++ [(PROJECT_ROOT ++ ["include"])] ++ [(PROJECT_ROOT ++ ["data"])] ++ [(PROJECT_ROOT ++ ["shaders"])] ++ [(PROJECT_ROOT ++ ["build"])]) fs.files) :=
    mkdirExistOk_fresh
      (by
        simp only [FS.dirs, List.mem_append, List.mem_singleton, not_or]
        exact ⟨⟨⟨⟨⟨hnd _ (List.prefix_append _ _), by decide⟩, by decide⟩, by decide⟩, by decide⟩, by decide⟩)
      (hnf _ (List.prefix_append _ _))
      (Or.inr (by
        rw [show ((PROJECT_ROOT ++ ["build"]) : FsPath).dropLast = PROJECT_ROOT from rfl]
        simp))
  have e6 : mkdirExistOk (FS.mk (fs.dirs ++ [PROJECT_ROOT] ++ [(PROJECT_ROOT ++ ["src"])] ++ [(PROJECT_ROOT ++ ["include"])] ++ [(PROJECT_ROOT ++ ["data"])] ++ [(PROJECT_ROOT ++ ["shaders"])] ++ [(PROJECT_ROOT ++ ["build"])]) fs.files) (PROJECT_ROOT ++ ["docs"]) =
      some (FS.mk (fs.dirs ++ [PROJECT_ROOT] ++ [(PROJECT_ROOT ++ ["src"])] ++ [(PROJECT_ROOT ++ ["include"])] ++ [(PROJECT_ROOT ++ ["data"])] ++ [(PROJECT_ROOT ++ ["shaders"])] ++ [(PROJECT_ROOT ++ ["build"])] ++ [(PROJECT_ROOT ++ ["docs"])]) fs.files) :=
    mkdirExistOk_fresh
      (by
        simp only [FS.dirs, List.mem_append, List.mem_singleton, not_or]
        exact ⟨⟨⟨⟨⟨⟨hnd _ (List.prefix_append _ _), by decide⟩, by decide⟩, by decide⟩, by decide⟩, by decide⟩, by decide⟩)
      (hnf _ (List.prefix_append _ _))
      (Or.inr (by
        rw [show ((PROJECT_ROOT ++ ["docs"]) : FsPath).dropLast = PROJECT_ROOT from rfl]
        simp))
  have e7 : mkdirExistOk (FS.mk (fs.dirs ++ [PROJECT_ROOT] ++ [(PROJECT_ROOT ++ ["src"])] ++ [(PROJECT_ROOT ++ ["include"])] ++ [(PROJECT_ROOT ++ ["data"])] ++ [(PROJECT_ROOT ++ ["shaders"])] ++ [(PROJECT_ROOT ++ ["build"])] ++ [(PROJECT_ROOT ++ ["docs"])]) fs.files) (PROJECT_ROOT ++ ["tests"]) =
      some (FS.mk (fs.dirs ++ [PROJECT_ROOT] ++ [(PROJECT_ROOT ++ ["src"])] ++ [(PROJECT_ROOT ++ ["include"])] ++ [(PROJECT_ROOT ++ ["data"])] ++ [(PROJECT_ROOT ++ ["shaders"])] ++ [(PROJECT_ROOT ++ ["build"])] ++ [(PROJECT_ROOT ++ ["docs"])] ++ [(PROJECT_ROOT ++ ["tests"])]) fs.files) :=
    mkdirExistOk_fresh
      (by
        simp only [FS.dirs, List.mem_append, List.mem_singleton, not_or]
        exact ⟨⟨⟨⟨⟨⟨⟨hnd _ (List.prefix_append _ _), by decide⟩, by decide⟩, by decide⟩, by decide⟩, by decide⟩, by decide⟩, by decide⟩)
      (hnf _ (List.prefix_append _ _))
      (Or.inr (by
        rw [show ((PROJECT_ROOT ++ ["tests"]) : FsPath).dropLast = PROJECT_ROOT from rfl]
        simp))
  have e8 : mkdirExistOk (FS.mk (fs.dirs ++ [PROJECT_ROOT] ++ [(PROJECT_ROOT ++ ["src"])] ++ [(PROJECT_ROOT ++ ["include"])] ++ [(PROJECT_ROOT ++ ["data"])] ++ [(PROJECT_ROOT ++ ["shaders"])] ++ [(PROJECT_ROOT ++ ["build"])] ++ [(PROJECT_ROOT ++ ["docs"])] ++ [(PROJECT_ROOT ++ ["tests"])]) fs.files) (PROJECT_ROOT ++ [".vscode"]) =
      some (FS.mk (fs.dirs ++ [PROJECT_ROOT] ++ [(PROJECT_ROOT ++ ["src"])] ++ [(PROJECT_ROOT ++ ["include"])] ++ [(PROJECT_ROOT ++ ["data"])] ++ [(PROJECT_ROOT ++ ["shaders"])] ++ [(PROJECT_ROOT ++ ["build"])] ++ [(PROJECT_ROOT ++ ["docs"])] ++ [(PROJECT_ROOT ++ ["tests"])] ++ [(PROJECT_ROOT ++ [".vscode"])]) fs.files) :=
    mkdirExistOk_fresh
      (by
        simp only [FS.dirs, List.mem_append, List.mem_singleton, not_or]
        exact ⟨⟨⟨⟨⟨⟨⟨⟨hnd _ (List.prefix_append _ _), by decide⟩, by decide⟩, by decide⟩, by decide⟩, by decide⟩, by decide⟩, by decide⟩, by decide⟩)
      (hnf _ (List.prefix_append _ _))
      (Or.inr (by
        rw [show ((PROJECT_ROOT ++ [".vscode"]) : FsPath).dropLast = PROJECT_ROOT from rfl]
        simp))
  have e9 : writeFile (FS.mk (fs.dirs ++ [PROJECT_ROOT] ++ [(PROJECT_ROOT ++ ["src"])] ++ [(PROJECT_ROOT ++ ["include"])] ++ [(PROJECT_ROOT ++ ["data"])] ++ [(PROJECT_ROOT ++ ["shaders"])] ++ [(PROJECT_ROOT ++ ["build"])] ++ [(PROJECT_ROOT ++ ["docs"])] ++ [(PROJECT_ROOT ++ ["tests"])] ++ [(PROJECT_ROOT ++ [".vscode"])]) (fs.files)) (PROJECT_ROOT ++ [".vscode", "settings.json"]) FileContent.vscodeSettings =
      some (FS.mk (fs.dirs ++ [PROJECT_ROOT] ++ [(PROJECT_ROOT ++ ["src"])] ++ [(PROJECT_ROOT ++ ["include"])] ++ [(PROJECT_ROOT ++ ["data"])] ++ [(PROJECT_ROOT ++ ["shaders"])] ++ [(PROJECT_ROOT ++ ["build"])] ++ [(PROJECT_ROOT ++ ["docs"])] ++ [(PROJECT_ROOT ++ ["tests"])] ++ [(PROJECT_ROOT ++ [".vscode"])]) (fs.files ++ [((PROJECT_ROOT ++ [".vscode", "settings.json"]), FileContent.vscodeSettings)])) :=
    writeFile_fresh
      (by
        simp only [FS.dirs, List.mem_append, List.mem_singleton, not_or]
        exact ⟨⟨⟨⟨⟨⟨⟨⟨⟨hnd _ (List.prefix_append _ _), by decide⟩, by decide⟩, by decide⟩, by decide⟩, by decide⟩, by decide⟩, by decide⟩, by decide⟩, by decide⟩)
      (by
        rw [show ((PROJECT_ROOT ++ [".vscode", "settings.json"]) : FsPath).dropLast = (PROJECT_ROOT ++ [".vscode"]) from rfl]
        simp)
      (show _ ∉ (FS.mk (fs.dirs ++ [PROJECT_ROOT] ++ [(PROJECT_ROOT ++ ["src"])] ++ [(PROJECT_ROOT ++ ["include"])] ++ [(PROJECT_ROOT ++ ["data"])] ++ [(PROJECT_ROOT ++ ["shaders"])] ++ [(PROJECT_ROOT ++ ["build"])] ++ [(PROJECT_ROOT ++ ["docs"])] ++ [(PROJECT_ROOT ++ ["tests"])] ++ [(PROJECT_ROOT ++ [".vscode"])]) (fs.files)).fileNames by
        rw [show (fs.files : List (FsPath × FileContent)) = fs.files ++ ([] : List (FsPath × FileContent))
          from by simp]
        rw [fileNames_mk_append]
        exact not_mem_append_of (hnf _ (List.prefix_append _ _)) (by decide))
  have e10 : writeFile (FS.mk (fs.dirs ++ [PROJECT_ROOT] ++ [(PROJECT_ROOT ++ ["src"])] ++ [(PROJECT_ROOT ++ ["include"])] ++ [(PROJECT_ROOT ++ ["data"])] ++ [(PROJECT_ROOT ++ ["shaders"])] ++ [(PROJECT_ROOT ++ ["build"])] ++ [(PROJECT_ROOT ++ ["docs"])] ++ [(PROJECT_ROOT ++ ["tests"])] ++ [(PROJECT_ROOT ++ [".vscode"])]) (fs.files ++ [((PROJECT_ROOT ++ [".vscode", "settings.json"]), FileContent.vscodeSettings)])) (PROJECT_ROOT ++ ["CMakeLists.txt"]) FileContent.cmakeTemplate =
      some (FS.mk (fs.dirs ++ [PROJECT_ROOT] ++ [(PROJECT_ROOT ++ ["src"])] ++ [(PROJECT_ROOT ++ ["include"])] ++ [(PROJECT_ROOT ++ ["data"])] ++ [(PROJECT_ROOT ++ ["shaders"])] ++ [(PROJECT_ROOT ++ ["build"])] ++ [(PROJECT_ROOT ++ ["docs"])] ++ [(PROJECT_ROOT ++ ["tests"])] ++ [(PROJECT_ROOT ++ [".vscode"])]) (fs.files ++ [((PROJECT_ROOT ++ [".vscode", "settings.json"]), FileContent.vscodeSettings)] ++ [((PROJECT_ROOT ++ ["CMakeLists.txt"]), FileContent.cmakeTemplate)])) :=
    writeFile_fresh
      (by
        simp only [FS.dirs, List.mem_append, List.mem_singleton, not_or]
        exact ⟨⟨⟨⟨⟨⟨⟨⟨⟨hnd _ (List.prefix_append _ _), by decide⟩, by decide⟩, by decide⟩, by decide⟩, by decide⟩, by decide⟩, by decide⟩, by decide⟩, by decide⟩)
      (by
        rw [show ((PROJECT_ROOT ++ ["CMakeLists.txt"]) : FsPath).dropLast = PROJECT_ROOT from rfl]
        simp)
      (show _ ∉ (FS.mk (fs.dirs ++ [PROJECT_ROOT] ++ [(PROJECT_ROOT ++ ["src"])] ++ [(PROJECT_ROOT ++ ["include"])] ++ [(PROJECT_ROOT ++ ["data"])] ++ [(PROJECT_ROOT ++ ["shaders"])] ++ [(PROJECT_ROOT ++ ["build"])] ++ [(PROJECT_ROOT ++ ["docs"])] ++ [(PROJECT_ROOT ++ ["tests"])] ++ [(PROJECT_ROOT ++ [".vscode"])]) (fs.files ++ [((PROJECT_ROOT ++ [".vscode", "settings.json"]), FileContent.vscodeSettings)])).fileNames by
        rw [show (fs.files ++ [((PROJECT_ROOT ++ [".vscode", "settings.json"]), FileContent.vscodeSettings)] : List (FsPath × FileContent)) = fs.files ++ ([((PROJECT_ROOT ++ [".vscode", "settings.json"]), FileContent.vscodeSettings)])
          from by simp]
        rw [fileNames_mk_append]
        exact not_mem_append_of (hnf _ (List.prefix_append _ _)) (by decide))
  have e11 : writeFile (FS.mk (fs.dirs ++ [PROJECT_ROOT] ++ [(PROJECT_ROOT ++ ["src"])] ++ [(PROJECT_ROOT ++ ["include"])] ++ [(PROJECT_ROOT ++ ["data"])] ++ [(PROJECT_ROOT ++ ["shaders"])] ++ [(PROJECT_ROOT ++ ["build"])] ++ [(PROJECT_ROOT ++ ["docs"])] ++ [(PROJECT_ROOT ++ ["tests"])] ++ [(PROJECT_ROOT ++ [".vscode"])]) (fs.files ++ [((PROJECT_ROOT ++ [".vscode", "settings.json"]), FileContent.vscodeSettings)] ++ [((PROJECT_ROOT ++ ["CMakeLists.txt"]), FileContent.cmakeTemplate)])) (PROJECT_ROOT ++ ["src", "main.cpp"]) FileContent.mainCppTemplate =
      some (FS.mk (fs.dirs ++ [PROJECT_ROOT] ++ [(PROJECT_ROOT ++ ["src"])] ++ [(PROJECT_ROOT ++ ["include"])] ++ [(PROJECT_ROOT ++ ["data"])] ++ [(PROJECT_ROOT ++ ["shaders"])] ++ [(PROJECT_ROOT ++ ["build"])] ++ [(PROJECT_ROOT ++ ["docs"])] ++ [(PROJECT_ROOT ++ ["tests"])] ++ [(PROJECT_ROOT ++ [".vscode"])]) (fs.files ++ [((PROJECT_ROOT ++ [".vscode", "settings.json"]), FileContent.vscodeSettings)] ++ [((PROJECT_ROOT ++ ["CMakeLists.txt"]), FileContent.cmakeTemplate)] ++ [((PROJECT_ROOT ++ ["src", "main.cpp"]), FileContent.mainCppTemplate)])) :=
    writeFile_fresh
      (by
        simp only [FS.dirs, List.mem_append, List.mem_singleton, not_or]
        exact ⟨⟨⟨⟨⟨⟨⟨⟨⟨hnd _ (List.prefix_append _ _), by decide⟩, by decide⟩, by decide⟩, by decide⟩, by decide⟩, by decide⟩, by decide⟩, by decide⟩, by decide⟩)
      (by
        rw [show ((PROJECT_ROOT ++ ["src", "main.cpp"]) : FsPath).dropLast = (PROJECT_ROOT ++ ["src"]) from rfl]
        simp)
      (show _ ∉ (FS.mk (fs.dirs ++ [PROJECT_ROOT] ++ [(PROJECT_ROOT ++ ["src"])] ++ [(PROJECT_ROOT ++ ["include"])] ++ [(PROJECT_ROOT ++ ["data"])] ++ [(PROJECT_ROOT ++ ["shaders"])] ++ [(PROJECT_ROOT ++ ["build"])] ++ [(PROJECT_ROOT ++ ["docs"])] ++ [(PROJECT_ROOT ++ ["tests"])] ++ [(PROJECT_ROOT ++ [".vscode"])]) (fs.files ++ [((PROJECT_ROOT ++ [".vscode", "settings.json"]), FileContent.vscodeSettings)] ++ [((PROJECT_ROOT ++ ["CMakeLists.txt"]), FileContent.cmakeTemplate)])).fileNames by
        rw [show (fs.files ++ [((PROJECT_ROOT ++ [".vscode", "settings.json"]), FileContent.vscodeSettings)] ++ [((PROJECT_ROOT ++ ["CMakeLists.txt"]), FileContent.cmakeTemplate)] : List (FsPath × FileContent)) = fs.files ++ ([((PROJECT_ROOT ++ [".vscode", "settings.json"]), FileContent.vscodeSettings)] ++ [((PROJECT_ROOT ++ ["CMakeLists.txt"]), FileContent.cmakeTemplate)])
          from by simp]
        rw [fileNames_mk_append]
        exact not_mem_append_of (hnf _ (List.prefix_append _ _)) (by decide))
  have e12 : writeFile (FS.mk (fs.dirs ++ [PROJECT_ROOT] ++ [(PROJECT_ROOT ++ ["src"])] ++ [(PROJECT_ROOT ++ ["include"])] ++ [(PROJECT_ROOT ++ ["data"])] ++ [(PROJECT_ROOT ++ ["shaders"])] ++ [(PROJECT_ROOT ++ ["build"])] ++ [(PROJECT_ROOT ++ ["docs"])] ++ [(PROJECT_ROOT ++ ["tests"])] ++ [(PROJECT_ROOT ++ [".vscode"])]) (fs.files ++ [((PROJECT_ROOT ++ [".vscode", "settings.json"]), FileContent.vscodeSettings)] ++ [((PROJECT_ROOT ++ ["CMakeLists.txt"]), FileContent.cmakeTemplate)] ++ [((PROJECT_ROOT ++ ["src", "main.cpp"]), FileContent.mainCppTemplate)])) (PROJECT_ROOT ++ ["data", "exchanges.json"]) FileContent.exchangesJson =
      some (FS.mk (fs.dirs ++ [PROJECT_ROOT] ++ [(PROJECT_ROOT ++ ["src"])] ++ [(PROJECT_ROOT ++ ["include"])] ++ [(PROJECT_ROOT ++ ["data"])] ++ [(PROJECT_ROOT ++ ["shaders"])] ++ [(PROJECT_ROOT ++ ["build"])] ++ [(PROJECT_ROOT ++ ["docs"])] ++ [(PROJECT_ROOT ++ ["tests"])] ++ [(PROJECT_ROOT ++ [".vscode"])]) (fs.files ++ [((PROJECT_ROOT ++ [".vscode", "settings.json"]), FileContent.vscodeSettings)] ++ [((PROJECT_ROOT ++ ["CMakeLists.txt"]), FileContent.cmakeTemplate)] ++ [((PROJECT_ROOT ++ ["src", "main.cpp"]), FileContent.mainCppTemplate)] ++ [((PROJECT_ROOT ++ ["data", "exchanges.json"]), FileContent.exchangesJson)])) :=
    writeFile_fresh
      (by
        simp only [FS.dirs, List.mem_append, List.mem_singleton, not_or]
        exact ⟨⟨⟨⟨⟨⟨⟨⟨⟨hnd _ (List.prefix_append _ _), by decide⟩, by decide⟩, by decide⟩, by decide⟩, by decide⟩, by decide⟩, by decide⟩, by decide⟩, by decide⟩)
      (by
        rw [show ((PROJECT_ROOT ++ ["data", "exchanges.json"]) : FsPath).dropLast = (PROJECT_ROOT ++ ["data"]) from rfl]
        simp)
      (show _ ∉ (FS.mk (fs.dirs ++ [PROJECT_ROOT] ++ [(PROJECT_ROOT ++ ["src"])] ++ [(PROJECT_ROOT ++ ["include"])] ++ [(PROJECT_ROOT ++ ["data"])] ++ [(PROJECT_ROOT ++ ["shaders"])] ++ [(PROJECT_ROOT ++ ["build"])] ++ [(PROJECT_ROOT ++ ["docs"])] ++ [(PROJECT_ROOT ++ ["tests"])] ++ [(PROJECT_ROOT ++ [".vscode"])]) (fs.files ++ [((PROJECT_ROOT ++ [".vscode", "settings.json"]), FileContent.vscodeSettings)] ++ [((PROJECT_ROOT ++ ["CMakeLists.txt"]), FileContent.cmakeTemplate)] ++ [((PROJECT_ROOT ++ ["src", "main.cpp"]), FileContent.mainCppTemplate)])).fileNames by
        rw [show (fs.files ++ [((PROJECT_ROOT ++ [".vscode", "settings.json"]), FileContent.vscodeSettings)] ++ [((PROJECT_ROOT ++ ["CMakeLists.txt"]), FileContent.cmakeTemplate)] ++ [((PROJECT_ROOT ++ ["src", "main.cpp"]), FileContent.mainCppTemplate)] : List (FsPath × FileContent)) = fs.files ++ ([((PROJECT_ROOT ++ [".vscode", "settings.json"]), FileContent.vscodeSettings)] ++ [((PROJECT_ROOT ++ ["CMakeLists.txt"]), FileContent.cmakeTemplate)] ++ [((PROJECT_ROOT ++ ["src", "main.cpp"]), FileContent.mainCppTemplate)])
          from by simp]
        rw [fileNames_mk_append]
        exact not_mem_append_of (hnf _ (List.prefix_append _ _)) (by decide))
  have e13 : writeFile (FS.mk (fs.dirs ++ [PROJECT_ROOT] ++ [(PROJECT_ROOT ++ ["src"])] ++ [(PROJECT_ROOT ++ ["include"])] ++ [(PROJECT_ROOT ++ ["data"])] ++ [(PROJECT_ROOT ++ ["shaders"])] ++ [(PROJECT_ROOT ++ ["build"])] ++ [(PROJECT_ROOT ++ ["docs"])] ++ [(PROJECT_ROOT ++ ["tests"])] ++ [(PROJECT_ROOT ++ [".vscode"])]) (fs.files ++ [((PROJECT_ROOT ++ [".vscode", "settings.json"]), FileContent.vscodeSettings)] ++ [((PROJECT_ROOT ++ ["CMakeLists.txt"]), FileContent.cmakeTemplate)] ++ [((PROJECT_ROOT ++ ["src", "main.cpp"]), FileContent.mainCppTemplate)] ++ [((PROJECT_ROOT ++ ["data", "exchanges.json"]), FileContent.exchangesJson)])) (PROJECT_ROOT ++ ["README.md"]) FileContent.readmeTemplate =
      some (FS.mk (fs.dirs ++ [PROJECT_ROOT] ++ [(PROJECT_ROOT ++ ["src"])] ++ [(PROJECT_ROOT ++ ["include"])] ++ [(PROJECT_ROOT ++ ["data"])] ++ [(PROJECT_ROOT ++ ["shaders"])] ++ [(PROJECT_ROOT ++ ["build"])] ++ [(PROJECT_ROOT ++ ["docs"])] ++ [(PROJECT_ROOT ++ ["tests"])] ++ [(PROJECT_ROOT ++ [".vscode"])]) (fs.files ++ [((PROJECT_ROOT ++ [".vscode", "settings.json"]), FileContent.vscodeSettings)] ++ [((PROJECT_ROOT ++ ["CMakeLists.txt"]), FileContent.cmakeTemplate)] ++ [((PROJECT_ROOT ++ ["src", "main.cpp"]), FileContent.mainCppTemplate)] ++ [((PROJECT_ROOT ++ ["data", "exchanges.json"]), FileContent.exchangesJson)] ++ [((PROJECT_ROOT ++ ["README.md"]), FileContent.readmeTemplate)])) :=
    writeFile_fresh
      (by
        simp only [FS.dirs, List.mem_append, List.mem_singleton, not_or]
        exact ⟨⟨⟨⟨⟨⟨⟨⟨⟨hnd _ (List.prefix_append _ _), by decide⟩, by decide⟩, by decide⟩, by decide⟩, by decide⟩, by decide⟩, by decide⟩, by decide⟩, by decide⟩)
      (by
        rw [show ((PROJECT_ROOT ++ ["README.md"]) : FsPath).dropLast = PROJECT_ROOT from rfl]
        simp)
      (show _ ∉ (FS.mk (fs.dirs ++ [PROJECT_ROOT] ++ [(PROJECT_ROOT ++ ["src"])] ++ [(PROJECT_ROOT ++ ["include"])] ++ [(PROJECT_ROOT ++ ["data"])] ++ [(PROJECT_ROOT ++ ["shaders"])] ++ [(PROJECT_ROOT ++ ["build"])] ++ [(PROJECT_ROOT ++ ["docs"])] ++ [(PROJECT_ROOT ++ ["tests"])] ++ [(PROJECT_ROOT ++ [".vscode"])]) (fs.files ++ [((PROJECT_ROOT ++ [".vscode", "settings.json"]), FileContent.vscodeSettings)] ++ [((PROJECT_ROOT ++ ["CMakeLists.txt"]), FileContent.cmakeTemplate)] ++ [((PROJECT_ROOT ++ ["src", "main.cpp"]), FileContent.mainCppTemplate)] ++ [((PROJECT_ROOT ++ ["data", "exchanges.json"]), FileContent.exchangesJson)])).fileNames by
        rw [show (fs.files ++ [((PROJECT_ROOT ++ [".vscode", "settings.json"]), FileContent.vscodeSettings)] ++ [((PROJECT_ROOT ++ ["CMakeLists.txt"]), FileContent.cmakeTemplate)] ++ [((PROJECT_ROOT ++ ["src", "main.cpp"]), FileContent.mainCppTemplate)] ++ [((PROJECT_ROOT ++ ["data", "exchanges.json"]), FileContent.exchangesJson)] : List (FsPath × FileContent)) = fs.files ++ ([((PROJECT_ROOT ++ [".vscode", "settings.json"]), FileContent.vscodeSettings)] ++ [((PROJECT_ROOT ++ ["CMakeLists.txt"]), FileContent.cmakeTemplate)] ++ [((PROJECT_ROOT ++ ["src", "main.cpp"]), FileContent.mainCppTemplate)] ++ [((PROJECT_ROOT ++ ["data", "exchanges.json"]), FileContent.exchangesJson)])
          from by simp]
        rw [fileNames_mk_append]
        exact not_mem_append_of (hnf _ (List.prefix_append _ _)) (by decide))
  have e14 : writeFile (FS.mk (fs.dirs ++ [PROJECT_ROOT] ++ [(PROJECT_ROOT ++ ["src"])] ++ [(PROJECT_ROOT ++ ["include"])] ++ [(PROJECT_ROOT ++ ["data"])] ++ [(PROJECT_ROOT ++ ["shaders"])] ++ [(PROJECT_ROOT ++ ["build"])] ++ [(PROJECT_ROOT ++ ["docs"])] ++ [(PROJECT_ROOT ++ ["tests"])] ++ [(PROJECT_ROOT ++ [".vscode"])]) (fs.files ++ [((PROJECT_ROOT ++ [".vscode", "settings.json"]), FileContent.vscodeSettings)] ++ [((PROJECT_ROOT ++ ["CMakeLists.txt"]), FileContent.cmakeTemplate)] ++ [((PROJECT_ROOT ++ ["src", "main.cpp"]), FileContent.mainCppTemplate)] ++ [((PROJECT_ROOT ++ ["data", "exchanges.json"]), FileContent.exchangesJson)] ++ [((PROJECT_ROOT ++ ["README.md"]), FileContent.readmeTemplate)])) (PROJECT_ROOT ++ ["shaders", "globe_vertex.glsl"]) FileContent.vertexShaderStub =
      some (FS.mk (fs.dirs ++ [PROJECT_ROOT] ++ [(PROJECT_ROOT ++ ["src"])] ++ [(PROJECT_ROOT ++ ["include"])] ++ [(PROJECT_ROOT ++ ["data"])] ++ [(PROJECT_ROOT ++ ["shaders"])] ++ [(PROJECT_ROOT ++ ["build"])] ++ [(PROJECT_ROOT ++ ["docs"])] ++ [(PROJECT_ROOT ++ ["tests"])] ++ [(PROJECT_ROOT ++ [".vscode"])]) (fs.files ++ [((PROJECT_ROOT ++ [".vscode", "settings.json"]), FileContent.vscodeSettings)] ++ [((PROJECT_ROOT ++ ["CMakeLists.txt"]), FileContent.cmakeTemplate)] ++ [((PROJECT_ROOT ++ ["src", "main.cpp"]), FileContent.mainCppTemplate)] ++ [((PROJECT_ROOT ++ ["data", "exchanges.json"]), FileContent.exchangesJson)] ++ [((PROJECT_ROOT ++ ["README.md"]), FileContent.readmeTemplate)] ++ [((PROJECT_ROOT ++ ["shaders", "globe_vertex.glsl"]), FileContent.vertexShaderStub)])) :=
    writeFile_fresh
      (by
        simp only [FS.dirs, List.mem_append, List.mem_singleton, not_or]
        exact ⟨⟨⟨⟨⟨⟨⟨⟨⟨hnd _ (List.prefix_append _ _), by decide⟩, by decide⟩, by decide⟩, by decide⟩, by decide⟩, by decide⟩, by decide⟩, by decide⟩, by decide⟩)
      (by
        rw [show ((PROJECT_ROOT ++ ["shaders", "globe_vertex.glsl"]) : FsPath).dropLast = (PROJECT_ROOT ++ ["shaders"]) from rfl]
        simp)
      (show _ ∉ (FS.mk (fs.dirs ++ [PROJECT_ROOT] ++ [(PROJECT_ROOT ++ ["src"])] ++ [(PROJECT_ROOT ++ ["include"])] ++ [(PROJECT_ROOT ++ ["data"])] ++ [(PROJECT_ROOT ++ ["shaders"])] ++ [(PROJECT_ROOT ++ ["build"])] ++ [(PROJECT_ROOT ++ ["docs"])] ++ [(PROJECT_ROOT ++ ["tests"])] ++ [(PROJECT_ROOT ++ [".vscode"])]) (fs.files ++ [((PROJECT_ROOT ++ [".vscode", "settings.json"]), FileContent.vscodeSettings)] ++ [((PROJECT_ROOT ++ ["CMakeLists.txt"]), FileContent.cmakeTemplate)] ++ [((PROJECT_ROOT ++ ["src", "main.cpp"]), FileContent.mainCppTemplate)] ++ [((PROJECT_ROOT ++ ["data", "exchanges.json"]), FileContent.exchangesJson)] ++ [((PROJECT_ROOT ++ ["README.md"]), FileContent.readmeTemplate)])).fileNames by
        rw [show (fs.files ++ [((PROJECT_ROOT ++ [".vscode", "settings.json"]), FileContent.vscodeSettings)] ++ [((PROJECT_ROOT ++ ["CMakeLists.txt"]), FileContent.cmakeTemplate)] ++ [((PROJECT_ROOT ++ ["src", "main.cpp"]), FileContent.mainCppTemplate)] ++ [((PROJECT_ROOT ++ ["data", "exchanges.json"]), FileContent.exchangesJson)] ++ [((PROJECT_ROOT ++ ["README.md"]), FileContent.readmeTemplate)] : List (FsPath × FileContent)) = fs.files ++ ([((PROJECT_ROOT ++ [".vscode", "settings.json"]), FileContent.vscodeSettings)] ++ [((PROJECT_ROOT ++ ["CMakeLists.txt"]), FileContent.cmakeTemplate)] ++ [((PROJECT_ROOT ++ ["src", "main.cpp"]), FileContent.mainCppTemplate)] ++ [((PROJECT_ROOT ++ ["data", "exchanges.json"]), FileContent.exchangesJson)] ++ [((PROJECT_ROOT ++ ["README.md"]), FileContent.readmeTemplate)])
          from by simp]
        rw [fileNames_mk_append]
        exact not_mem_append_of (hnf _ (List.prefix_append _ _)) (by decide))
  have e15 : writeFile (FS.mk (fs.dirs ++ [PROJECT_ROOT] ++ [(PROJECT_ROOT ++ ["src"])] ++ [(PROJECT_ROOT ++ ["include"])] ++ [(PROJECT_ROOT ++ ["data"])] ++ [(PROJECT_ROOT ++ ["shaders"])] ++ [(PROJECT_ROOT ++ ["build"])] ++ [(PROJECT_ROOT ++ ["docs"])] ++ [(PROJECT_ROOT ++ ["tests"])] ++ [(PROJECT_ROOT ++ [".vscode"])]) (fs.files ++ [((PROJECT_ROOT ++ [".vscode", "settings.json"]), FileContent.vscodeSettings)] ++ [((PROJECT_ROOT ++ ["CMakeLists.txt"]), FileContent.cmakeTemplate)] ++ [((PROJECT_ROOT ++ ["src", "main.cpp"]), FileContent.mainCppTemplate)] ++ [((PROJECT_ROOT ++ ["data", "exchanges.json"]), FileContent.exchangesJson)] ++ [((PROJECT_ROOT ++ ["README.md"]), FileContent.readmeTemplate)] ++ [((PROJECT_ROOT ++ ["shaders", "globe_vertex.glsl"]), FileContent.vertexShaderStub)])) (PROJECT_ROOT ++ ["shaders", "globe_fragment.glsl"]) FileContent.fragmentShaderStub =
      some (FS.mk (fs.dirs ++ [PROJECT_ROOT] ++ [(PROJECT_ROOT ++ ["src"])] ++ [(PROJECT_ROOT ++ ["include"])] ++ [(PROJECT_ROOT ++ ["data"])] ++ [(PROJECT_ROOT ++ ["shaders"])] ++ [(PROJECT_ROOT ++ ["build"])] ++ [(PROJECT_ROOT ++ ["docs"])] ++ [(PROJECT_ROOT ++ ["tests"])] ++ [(PROJECT_ROOT ++ [".vscode"])]) (fs.files ++ [((PROJECT_ROOT ++ [".vscode", "settings.json"]), FileContent.vscodeSettings)] ++ [((PROJECT_ROOT ++ ["CMakeLists.txt"]), FileContent.cmakeTemplate)] ++ [((PROJECT_ROOT ++ ["src", "main.cpp"]), FileContent.mainCppTemplate)] ++ [((PROJECT_ROOT ++ ["data", "exchanges.json"]), FileContent.exchangesJson)] ++ [((PROJECT_ROOT ++ ["README.md"]), FileContent.readmeTemplate)] ++ [((PROJECT_ROOT ++ ["shaders", "globe_vertex.glsl"]), FileContent.vertexShaderStub)] ++ [((PROJECT_ROOT ++ ["shaders", "globe_fragment.glsl"]), FileContent.fragmentShaderStub)])) :=
    writeFile_fresh
      (by
        simp only [FS.dirs, List.mem_append, List.mem_singleton, not_or]
        exact ⟨⟨⟨⟨⟨⟨⟨⟨⟨hnd _ (List.prefix_append _ _), by decide⟩, by decide⟩, by decide⟩, by decide⟩, by decide⟩, by decide⟩, by decide⟩, by decide⟩, by decide⟩)
      (by
        rw [show ((PROJECT_ROOT ++ ["shaders", "globe_fragment.glsl"]) : FsPath).dropLast = (PROJECT_ROOT ++ ["shaders"]) from rfl]
        simp)
      (show _ ∉ (FS.mk (fs.dirs ++ [PROJECT_ROOT] ++ [(PROJECT_ROOT ++ ["src"])] ++ [(PROJECT_ROOT ++ ["include"])] ++ [(PROJECT_ROOT ++ ["data"])] ++ [(PROJECT_ROOT ++ ["shaders"])] ++ [(PROJECT_ROOT ++ ["build"])] ++ [(PROJECT_ROOT ++ ["docs"])] ++ [(PROJECT_ROOT ++ ["tests"])] ++ [(PROJECT_ROOT ++ [".vscode"])]) (fs.files ++ [((PROJECT_ROOT ++ [".vscode", "settings.json"]), FileContent.vscodeSettings)] ++ [((PROJECT_ROOT ++ ["CMakeLists.txt"]), FileContent.cmakeTemplate)] ++ [((PROJECT_ROOT ++ ["src", "main.cpp"]), FileContent.mainCppTemplate)] ++ [((PROJECT_ROOT ++ ["data", "exchanges.json"]), FileContent.exchangesJson)] ++ [((PROJECT_ROOT ++ ["README.md"]), FileContent.readmeTemplate)] ++ [((PROJECT_ROOT ++ ["shaders", "globe_vertex.glsl"]), FileContent.vertexShaderStub)])).fileNames by
        rw [show (fs.files ++ [((PROJECT_ROOT ++ [".vscode", "settings.json"]), FileContent.vscodeSettings)] ++ [((PROJECT_ROOT ++ ["CMakeLists.txt"]), FileContent.cmakeTemplate)] ++ [((PROJECT_ROOT ++ ["src", "main.cpp"]), FileContent.mainCppTemplate)] ++ [((PROJECT_ROOT ++ ["data", "exchanges.json"]), FileContent.exchangesJson)] ++ [((PROJECT_ROOT ++ ["README.md"]), FileContent.readmeTemplate)] ++ [((PROJECT_ROOT ++ ["shaders", "globe_vertex.glsl"]), FileContent.vertexShaderStub)] : List (FsPath × FileContent)) = fs.files ++ ([((PROJECT_ROOT ++ [".vscode", "settings.json"]), FileContent.vscodeSettings)] ++ [((PROJECT_ROOT ++ ["CMakeLists.txt"]), FileContent.cmakeTemplate)] ++ [((PROJECT_ROOT ++ ["src", "main.cpp"]), FileContent.mainCppTemplate)] ++ [((PROJECT_ROOT ++ ["data", "exchanges.json"]), FileContent.exchangesJson)] ++ [((PROJECT_ROOT ++ ["README.md"]), FileContent.readmeTemplate)] ++ [((PROJECT_ROOT ++ ["shaders", "globe_vertex.glsl"]), FileContent.vertexShaderStub)])
          from by simp]
        rw [fileNames_mk_append]
        exact not_mem_append_of (hnf _ (List.prefix_append _ _)) (by decide))
  have e16 : writeFile (FS.mk (fs.dirs ++ [PROJECT_ROOT] ++ [(PROJECT_ROOT ++ ["src"])] ++ [(PROJECT_ROOT ++ ["include"])] ++ [(PROJECT_ROOT ++ ["data"])] ++ [(PROJECT_ROOT ++ ["shaders"])] ++ [(PROJECT_ROOT ++ ["build"])] ++ [(PROJECT_ROOT ++ ["docs"])] ++ [(PROJECT_ROOT ++ ["tests"])] ++ [(PROJECT_ROOT ++ [".vscode"])]) (fs.files ++ [((PROJECT_ROOT ++ [".vscode", "settings.json"]), FileContent.vscodeSettings)] ++ [((PROJECT_ROOT ++ ["CMakeLists.txt"]), FileContent.cmakeTemplate)] ++ [((PROJECT_ROOT ++ ["src", "main.cpp"]), FileContent.mainCppTemplate)] ++ [((PROJECT_ROOT ++ ["data", "exchanges.json"]), FileContent.exchangesJson)] ++ [((PROJECT_ROOT ++ ["README.md"]), FileContent.readmeTemplate)] ++ [((PROJECT_ROOT ++ ["shaders", "globe_vertex.glsl"]), FileContent.vertexShaderStub)] ++ [((PROJECT_ROOT ++ ["shaders", "globe_fragment.glsl"]), FileContent.fragmentShaderStub)])) (PROJECT_ROOT ++ [".gitignore"]) FileContent.gitignoreText =
      some (FS.mk (fs.dirs ++ [PROJECT_ROOT] ++ [(PROJECT_ROOT ++ ["src"])] ++ [(PROJECT_ROOT ++ ["include"])] ++ [(PROJECT_ROOT ++ ["data"])] ++ [(PROJECT_ROOT ++ ["shaders"])] ++ [(PROJECT_ROOT ++ ["build"])] ++ [(PROJECT_ROOT ++ ["docs"])] ++ [(PROJECT_ROOT ++ ["tests"])] ++ [(PROJECT_ROOT ++ [".vscode"])]) (fs.files ++ [((PROJECT_ROOT ++ [".vscode", "settings.json"]), FileContent.vscodeSettings)] ++ [((PROJECT_ROOT ++ ["CMakeLists.txt"]), FileContent.cmakeTemplate)] ++ [((PROJECT_ROOT ++ ["src", "main.cpp"]), FileContent.mainCppTemplate)] ++ [((PROJECT_ROOT ++ ["data", "exchanges.json"]), FileContent.exchangesJson)] ++ [((PROJECT_ROOT ++ ["README.md"]), FileContent.readmeTemplate)] ++ [((PROJECT_ROOT ++ ["shaders", "globe_vertex.glsl"]), FileContent.vertexShaderStub)] ++ [((PROJECT_ROOT ++ ["shaders", "globe_fragment.glsl"]), FileContent.fragmentShaderStub)] ++ [((PROJECT_ROOT ++ [".gitignore"]), FileContent.gitignoreText)])) :=
    writeFile_fresh
      (by
        simp only [FS.dirs, List.mem_append, List.mem_singleton, not_or]
        exact ⟨⟨⟨⟨⟨⟨⟨⟨⟨hnd _ (List.prefix_append _ _), by decide⟩, by decide⟩, by decide⟩, by decide⟩, by decide⟩, by decide⟩, by decide⟩, by decide⟩, by decide⟩)
      (by
        rw [show ((PROJECT_ROOT ++ [".gitignore"]) : FsPath).dropLast = PROJECT_ROOT from rfl]
        simp)
      (show _ ∉ (FS.mk (fs.dirs ++ [PROJECT_ROOT] ++ [(PROJECT_ROOT ++ ["src"])] ++ [(PROJECT_ROOT ++ ["include"])] ++ [(PROJECT_ROOT ++ ["data"])] ++ [(PROJECT_ROOT ++ ["shaders"])] ++ [(PROJECT_ROOT ++ ["build"])] ++ [(PROJECT_ROOT ++ ["docs"])] ++ [(PROJECT_ROOT ++ ["tests"])] ++ [(PROJECT_ROOT ++ [".vscode"])]) (fs.files ++ [((PROJECT_ROOT ++ [".vscode", "settings.json"]), FileContent.vscodeSettings)] ++ [((PROJECT_ROOT ++ ["CMakeLists.txt"]), FileContent.cmakeTemplate)] ++ [((PROJECT_ROOT ++ ["src", "main.cpp"]), FileContent.mainCppTemplate)] ++ [((PROJECT_ROOT ++ ["data", "exchanges.json"]), FileContent.exchangesJson)] ++ [((PROJECT_ROOT ++ ["README.md"]), FileContent.readmeTemplate)] ++ [((PROJECT_ROOT ++ ["shaders", "globe_vertex.glsl"]), FileContent.vertexShaderStub)] ++ [((PROJECT_ROOT ++ ["shaders", "globe_fragment.glsl"]), FileContent.fragmentShaderStub)])).fileNames by
        rw [show (fs.files ++ [((PROJECT_ROOT ++ [".vscode", "settings.json"]), FileContent.vscodeSettings)] ++ [((PROJECT_ROOT ++ ["CMakeLists.txt"]), FileContent.cmakeTemplate)] ++ [((PROJECT_ROOT ++ ["src", "main.cpp"]), FileContent.mainCppTemplate)] ++ [((PROJECT_ROOT ++ ["data", "exchanges.json"]), FileContent.exchangesJson)] ++ [((PROJECT_ROOT ++ ["README.md"]), FileContent.readmeTemplate)] ++ [((PROJECT_ROOT ++ ["shaders", "globe_vertex.glsl"]), FileContent.vertexShaderStub)] ++ [((PROJECT_ROOT ++ ["shaders", "globe_fragment.glsl"]), FileContent.fragmentShaderStub)] : List (FsPath × FileContent)) = fs.files ++ ([((PROJECT_ROOT ++ [".vscode", "settings.json"]), FileContent.vscodeSettings)] ++ [((PROJECT_ROOT ++ ["CMakeLists.txt"]), FileContent.cmakeTemplate)] ++ [((PROJECT_ROOT ++ ["src", "main.cpp"]), FileContent.mainCppTemplate)] ++ [((PROJECT_ROOT ++ ["data", "exchanges.json"]), FileContent.exchangesJson)] ++ [((PROJECT_ROOT ++ ["README.md"]), FileContent.readmeTemplate)] ++ [((PROJECT_ROOT ++ ["shaders", "globe_vertex.glsl"]), FileContent.vertexShaderStub)] ++ [((PROJECT_ROOT ++ ["shaders", "globe_fragment.glsl"]), FileContent.fragmentShaderStub)])
          from by simp]
        rw [fileNames_mk_append]
        exact not_mem_append_of (hnf _ (List.prefix_append _ _)) (by decide))
  simp only [create_project_structure, e0, e1, e2, e3, e4, e5, e6, e7, e8,
    e9, e10, e11, e12, e13, e14, e15, e16, DIRECTORIES,
    List.foldlM_cons, List.foldlM_nil,
    Option.bind_eq_bind, Option.some_bind, Option.pure_def,
    createdDirs, createdFiles]
  simp [List.append_assoc]

/-- C4: running `create_project_structure` on a valid filesystem where the
project root is absent (its drive ancestors existing) creates exactly the
directory layout `createdDirs` (the root plus `src`, `include`, `data`,
`shaders`, `build`, `docs`, `tests`, `.vscode`) and writes exactly the files
`createdFiles` (`CMakeLists.txt`, `src/main.cpp`, `data/exchanges.json`,
`README.md`, `.vscode/settings.json`, the two shader placeholders and
`.gitignore`), each with the content of its in-script template constant, and
touches nothing else. -/
theorem create_project_structure_creates_exact_layout (fs : FS)
    (hV : fs.Valid) (hD : ["D:"] ∈ fs.dirs) (hDP : ["D:", "Projects"] ∈ fs.dirs)
    (hR : PROJECT_ROOT ∉ fs.dirs) (hRf : PROJECT_ROOT ∉ fs.fileNames) :
    create_project_structure fs =
      some { dirs := fs.dirs ++ createdDirs,
             files := fs.files ++ createdFiles } :=
  create_project_structure_run hV hD hDP hR hRf

/-- Witness for C4 on the two-ancestor empty filesystem. -/
theorem create_project_structure_creates_exact_layout_witness :
    create_project_structure (FS.mk [["D:"], ["D:", "Projects"]] []) =
      some { dirs := [["D:"], ["D:", "Projects"]] ++ createdDirs,
             files := ([] : List (FsPath × FileContent)) ++ createdFiles } :=
  create_project_structure_creates_exact_layout _
    ⟨by decide, by decide, by decide, by decide, by decide⟩
    (by decide) (by decide) (by decide) (by decide)

/-- C5: `download_glad` only prints instructions: it performs no network
request (in particular `GLAD_URL` and the computed zip path are never used to
fetch anything), and on a valid filesystem whose project root exists and
where `external` is absent, its only filesystem effect is creating the six
empty directories of `gladDirs`, the file set staying exactly as it was. -/
theorem download_glad_only_creates_directories (fs : FS) (hV : fs.Valid)
    (hRoot : PROJECT_ROOT ∈ fs.dirs)
    (hExt : PROJECT_ROOT ++ ["external"] ∉ fs.dirs)
    (hExtf : PROJECT_ROOT ++ ["external"] ∉ fs.fileNames) :
    download_glad fs =
      some { dirs := fs.dirs ++ gladDirs, files := fs.files } := by
  have hnd : ∀ p : FsPath, PROJECT_ROOT ++ ["external"] <+: p → p ∉ fs.dirs :=
    fun p hp =>
      not_dir_under_absent hV hExt (by decide) p.length p le_rfl hp
  have hnf : ∀ q : FsPath,
      PROJECT_ROOT ++ ["external"] <+: q → q ∉ fs.fileNames :=
    not_file_under_absent hV hExt (by decide) hExtf
  have e0 : mkdirExistOk (FS.mk (fs.dirs) fs.files) (PROJECT_ROOT ++ ["external"]) =
      some (FS.mk (fs.dirs ++ [(PROJECT_ROOT ++ ["external"])]) fs.files) :=
    mkdirExistOk_fresh
      hExt
      hExtf
      (Or.inr hRoot)
  have e1 : mkdirExistOk (FS.mk (fs.dirs ++ [(PROJECT_ROOT ++ ["external"])]) fs.files) ((PROJECT_ROOT ++ ["external"]) ++ ["glad"]) =
      some (FS.mk (fs.dirs ++ [(PROJECT_ROOT ++ ["external"])] ++ [((PROJECT_ROOT ++ ["external"]) ++ ["glad"])]) fs.files) :=
    mkdirExistOk_fresh
      (by
        simp only [FS.dirs, List.mem_append, List.mem_singleton, not_or]
        exact ⟨hnd _ (by decide), by decide⟩)
      (hnf _ (by decide))
      (Or.inr (by
        rw [show (((PROJECT_ROOT ++ ["external"]) ++ ["glad"]) : FsPath).dropLast = (PROJECT_ROOT ++ ["external"]) from rfl]
        simp))
  have e2 : mkdirExistOk (FS.mk (fs.dirs ++ [(PROJECT_ROOT ++ ["external"])] ++ [((PROJECT_ROOT ++ ["external"]) ++ ["glad"])]) fs.files) (((PROJECT_ROOT ++ ["external"]) ++ ["glad"]) ++ ["include"]) =
      some (FS.mk (fs.dirs ++ [(PROJECT_ROOT ++ ["external"])] ++ [((PROJECT_ROOT ++ ["external"]) ++ ["glad"])] ++ [(((PROJECT_ROOT ++ ["external"]) ++ ["glad"]) ++ ["include"])]) fs.files) :=
    mkdirExistOk_fresh
      (by
        simp only [FS.dirs, List.mem_append, List.mem_singleton, not_or]
        exact ⟨⟨hnd _ (by decide), by decide⟩, by decide⟩)
      (hnf _ (by decide))
      (Or.inr (by
        rw [show ((((PROJECT_ROOT ++ ["external"]) ++ ["glad"]) ++ ["include"]) : FsPath).dropLast = ((PROJECT_ROOT ++ ["external"]) ++ ["glad"]) from rfl]
        simp))
  have e3 : mkdirExistOk (FS.mk (fs.dirs ++ [(PROJECT_ROOT ++ ["external"])] ++ [((PROJECT_ROOT ++ ["external"]) ++ ["glad"])] ++ [(((PROJECT_ROOT ++ ["external"]) ++ ["glad"]) ++ ["include"])]) fs.files) ((((PROJECT_ROOT ++ ["external"]) ++ ["glad"]) ++ ["include"]) ++ ["glad"]) =
      some (FS.mk (fs.dirs ++ [(PROJECT_ROOT ++ ["external"])] ++ [((PROJECT_ROOT ++ ["external"]) ++ ["glad"])] ++ [(((PROJECT_ROOT ++ ["external"]) ++ ["glad"]) ++ ["include"])] ++ [((((PROJECT_ROOT ++ ["external"]) ++ ["glad"]) ++ ["include"]) ++ ["glad"])]) fs.files) :=
    mkdirExistOk_fresh
      (by
        simp only [FS.dirs, List.mem_append, List.mem_singleton, not_or]
        exact ⟨⟨⟨hnd _ (by decide), by decide⟩, by decide⟩, by decide⟩)
      (hnf _ (by decide))
      (Or.inr (by
        rw [show (((((PROJECT_ROOT ++ ["external"]) ++ ["glad"]) ++ ["include"]) ++ ["glad"]) : FsPath).dropLast = (((PROJECT_ROOT ++ ["external"]) ++ ["glad"]) ++ ["include"]) from rfl]
        simp))
  have e4 : mkdirExistOk (FS.mk (fs.dirs ++ [(PROJECT_ROOT ++ ["external"])] ++ [((PROJECT_ROOT ++ ["external"]) ++ ["glad"])] ++ [(((PROJECT_ROOT ++ ["external"]) ++ ["glad"]) ++ ["include"])] ++ [((((PROJECT_ROOT ++ ["external"]) ++ ["glad"]) ++ ["include"]) ++ ["glad"])]) fs.files) ((((PROJECT_ROOT ++ ["external"]) ++ ["glad"]) ++ ["include"]) ++ ["KHR"]) =
      some (FS.mk (fs.dirs ++ [(PROJECT_ROOT ++ ["external"])] ++ [((PROJECT_ROOT ++ ["external"]) ++ ["glad"])] ++ [(((PROJECT_ROOT ++ ["external"]) ++ ["glad"]) ++ ["include"])] ++ [((((PROJECT_ROOT ++ ["external"]) ++ ["glad"]) ++ ["include"]) ++ ["glad"])] ++ [((((PROJECT_ROOT ++ ["external"]) ++ ["glad"]) ++ ["include"]) ++ ["KHR"])]) fs.files) :=
    mkdirExistOk_fresh
      (by
        simp only [FS.dirs, List.mem_append, List.mem_singleton, not_or]
        exact ⟨⟨⟨⟨hnd _ (by decide), by decide⟩, by decide⟩, by decide⟩, by decide⟩)
      (hnf _ (by decide))
      (Or.inr (by
        rw [show (((((PROJECT_ROOT ++ ["external"]) ++ ["glad"]) ++ ["include"]) ++ ["KHR"]) : FsPath).dropLast = (((PROJECT_ROOT ++ ["external"]) ++ ["glad"]) ++ ["include"]) from rfl]
        simp))
  have e5 : mkdirExistOk (FS.mk (fs.dirs ++ [(PROJECT_ROOT ++ ["external"])] ++ [((PROJECT_ROOT ++ ["external"]) ++ ["glad"])] ++ [(((PROJECT_ROOT ++ ["external"]) ++ ["glad"]) ++ ["include"])] ++ [((((PROJECT_ROOT ++ ["external"]) ++ ["glad"]) ++ ["include"]) ++ ["glad"])] ++ [((((PROJECT_ROOT ++ ["external"]) ++ ["glad"]) ++ ["include"]) ++ ["KHR"])]) fs.files) (((PROJECT_ROOT ++ ["external"]) ++ ["glad"]) ++ ["src"]) =
      some (FS.mk (fs.dirs ++ [(PROJECT_ROOT ++ ["external"])] ++ [((PROJECT_ROOT ++ ["external"]) ++ ["glad"])] ++ [(((PROJECT_ROOT ++ ["external"]) ++ ["glad"]) ++ ["include"])] ++ [((((PROJECT_ROOT ++ ["external"]) ++ ["glad"]) ++ ["include"]) ++ ["glad"])] ++ [((((PROJECT_ROOT ++ ["external"]) ++ ["glad"]) ++ ["include"]) ++ ["KHR"])] ++ [(((PROJECT_ROOT ++ ["external"]) ++ ["glad"]) ++ ["src"])]) fs.files) :=
    mkdirExistOk_fresh
      (by
        simp only [FS.dirs, List.mem_append, List.mem_singleton, not_or]
        exact ⟨⟨⟨⟨⟨hnd _ (by decide), by decide⟩, by decide⟩, by decide⟩, by decide⟩, by decide⟩)
      (hnf _ (by decide))
      (Or.inr (by
        rw [show ((((PROJECT_ROOT ++ ["external"]) ++ ["glad"]) ++ ["src"]) : FsPath).dropLast = ((PROJECT_ROOT ++ ["external"]) ++ ["glad"]) from rfl]
        simp))
  simp only [download_glad, e0, e1, e2, e3, e4, e5,
    Option.bind_eq_bind, Option.some_bind, gladDirs]
  simp [List.append_assoc]

/-- Witness for C5 on a filesystem holding just the root chain. -/
theorem download_glad_only_creates_directories_witness :
    download_glad
      (FS.mk [["D:"], ["D:", "Projects"], PROJECT_ROOT] []) =
      some { dirs := [["D:"], ["D:", "Projects"], PROJECT_ROOT] ++ gladDirs,
             files := ([] : List (FsPath × FileContent)) } :=
  download_glad_only_creates_directories _
    ⟨by decide, by decide, by decide, by decide, by decide⟩
    (by decide) (by decide) (by decide)

/-- Helper: a second run of `create_project_structure` on the state produced
by a fresh run leaves the filesystem exactly as it is. -/
theorem create_project_structure_stable {fs : FS} (hV : fs.Valid)
    (hD : ["D:"] ∈ fs.dirs) (hDP : ["D:", "Projects"] ∈ fs.dirs)
    (hR : PROJECT_ROOT ∉ fs.dirs) (hRf : PROJECT_ROOT ∉ fs.fileNames) :
    create_project_structure (FS.mk (fs.dirs ++ createdDirs) (fs.files ++ createdFiles)) = some (FS.mk (fs.dirs ++ createdDirs) (fs.files ++ createdFiles)) := by
  have hnd : ∀ p : FsPath, PROJECT_ROOT <+: p → p ∉ fs.dirs := fun p hp =>
    not_dir_under_absent hV hR (by decide) p.length p le_rfl hp
  have hnf : ∀ q : FsPath, PROJECT_ROOT <+: q → q ∉ fs.fileNames :=
    not_file_under_absent hV hR (by decide) hRf
  have hNodup : (FS.mk (fs.dirs ++ createdDirs) (fs.files ++ createdFiles)).fileNames.Nodup := by
    rw [fileNames_mk_append]
    refine List.Nodup.append hV.files_nodup (by decide) ?_
    intro a ha hb
    simp [createdFiles] at hb
    rcases hb with rfl | rfl | rfl | rfl | rfl | rfl | rfl | rfl <;>
      exact hnf _ (List.prefix_append _ _) ha
  have p0 : mkdirParents (FS.mk (fs.dirs ++ createdDirs) (fs.files ++ createdFiles)) PROJECT_ROOT = some (FS.mk (fs.dirs ++ createdDirs) (fs.files ++ createdFiles)) := by
    have s1 : mkdirExistOk (FS.mk (fs.dirs ++ createdDirs) (fs.files ++ createdFiles)) ["D:"] = some (FS.mk (fs.dirs ++ createdDirs) (fs.files ++ createdFiles)) :=
      mkdirExistOk_present (List.mem_append_left _ hD)
    have s2 : mkdirExistOk (FS.mk (fs.dirs ++ createdDirs) (fs.files ++ createdFiles)) ["D:", "Projects"] = some (FS.mk (fs.dirs ++ createdDirs) (fs.files ++ createdFiles)) :=
      mkdirExistOk_present (List.mem_append_left _ hDP)
    have s3 : mkdirExistOk (FS.mk (fs.dirs ++ createdDirs) (fs.files ++ createdFiles)) PROJECT_ROOT = some (FS.mk (fs.dirs ++ createdDirs) (fs.files ++ createdFiles)) :=
      mkdirExistOk_present (List.mem_append_right _ (by decide))
    simp only [mkdirParents,
      show prefixesOf PROJECT_ROOT = [["D:"], ["D:", "Projects"], PROJECT_ROOT]
        from rfl,
      List.foldlM_cons, List.foldlM_nil, s1, s2, s3,
      Option.bind_eq_bind, Option.some_bind, Option.pure_def]
  have m0 : mkdirExistOk (FS.mk (fs.dirs ++ createdDirs) (fs.files ++ createdFiles)) (PROJECT_ROOT ++ ["src"]) = some (FS.mk (fs.dirs ++ createdDirs) (fs.files ++ createdFiles)) :=
    mkdirExistOk_present (List.mem_append_right _ (by decide))
  have m1 : mkdirExistOk (FS.mk (fs.dirs ++ createdDirs) (fs.files ++ createdFiles)) (PROJECT_ROOT ++ ["include"]) = some (FS.mk (fs.dirs ++ createdDirs) (fs.files ++ createdFiles)) :=
    mkdirExistOk_present (List.mem_append_right _ (by decide))
  have m2 : mkdirExistOk (FS.mk (fs.dirs ++ createdDirs) (fs.files ++ createdFiles)) (PROJECT_ROOT ++ ["data"]) = some (FS.mk (fs.dirs ++ createdDirs) (fs.files ++ createdFiles)) :=
    mkdirExistOk_present (List.mem_append_right _ (by decide))
  have m3 : mkdirExistOk (FS.mk (fs.dirs ++ createdDirs) (fs.files ++ createdFiles)) (PROJECT_ROOT ++ ["shaders"]) = some (FS.mk (fs.dirs ++ createdDirs) (fs.files ++ createdFiles)) :=
    mkdirExistOk_present (List.mem_append_right _ (by decide))
  have m4 : mkdirExistOk (FS.mk (fs.dirs ++ createdDirs) (fs.files ++ createdFiles)) (PROJECT_ROOT ++ ["build"]) = some (FS.mk (fs.dirs ++ createdDirs) (fs.files ++ createdFiles)) :=
    mkdirExistOk_present (List.mem_append_right _ (by decide))
  have m5 : mkdirExistOk (FS.mk (fs.dirs ++ createdDirs) (fs.files ++ createdFiles)) (PROJECT_ROOT ++ ["docs"]) = some (FS.mk (fs.dirs ++ createdDirs) (fs.files ++ createdFiles)) :=
    mkdirExistOk_present (List.mem_append_right _ (by decide))
  have m6 : mkdirExistOk (FS.mk (fs.dirs ++ createdDirs) (fs.files ++ createdFiles)) (PROJECT_ROOT ++ ["tests"]) = some (FS.mk (fs.dirs ++ createdDirs) (fs.files ++ createdFiles)) :=
    mkdirExistOk_present (List.mem_append_right _ (by decide))
  have m7 : mkdirExistOk (FS.mk (fs.dirs ++ createdDirs) (fs.files ++ createdFiles)) (PROJECT_ROOT ++ [".vscode"]) = some (FS.mk (fs.dirs ++ createdDirs) (fs.files ++ createdFiles)) :=
    mkdirExistOk_present (List.mem_append_right _ (by decide))
  have w0 : writeFile (FS.mk (fs.dirs ++ createdDirs) (fs.files ++ createdFiles)) (PROJECT_ROOT ++ [".vscode", "settings.json"]) FileContent.vscodeSettings = some (FS.mk (fs.dirs ++ createdDirs) (fs.files ++ createdFiles)) :=
    writeFile_same
      (not_mem_append_of (hnd _ (List.prefix_append _ _)) (by decide))
      (List.mem_append_right _ (by decide))
      (List.mem_append_right _ (by decide))
      hNodup
  have w1 : writeFile (FS.mk (fs.dirs ++ createdDirs) (fs.files ++ createdFiles)) (PROJECT_ROOT ++ ["CMakeLists.txt"]) FileContent.cmakeTemplate = some (FS.mk (fs.dirs ++ createdDirs) (fs.files ++ createdFiles)) :=
    writeFile_same
      (not_mem_append_of (hnd _ (List.prefix_append _ _)) (by decide))
      (List.mem_append_right _ (by decide))
      (List.mem_append_right _ (by decide))
      hNodup
  have w2 : writeFile (FS.mk (fs.dirs ++ createdDirs) (fs.files ++ createdFiles)) (PROJECT_ROOT ++ ["src", "main.cpp"]) FileContent.mainCppTemplate = some (FS.mk (fs.dirs ++ createdDirs) (fs.files ++ createdFiles)) :=
    writeFile_same
      (not_mem_append_of (hnd _ (List.prefix_append _ _)) (by decide))
      (List.mem_append_right _ (by decide))
      (List.mem_append_right _ (by decide))
      hNodup
  have w3 : writeFile (FS.mk (fs.dirs ++ createdDirs) (fs.files ++ createdFiles)) (PROJECT_ROOT ++ ["data", "exchanges.json"]) FileContent.exchangesJson = some (FS.mk (fs.dirs ++ createdDirs) (fs.files ++ createdFiles)) :=
    writeFile_same
      (not_mem_append_of (hnd _ (List.prefix_append _ _)) (by decide))
      (List.mem_append_right _ (by decide))
      (List.mem_append_right _ (by decide))
      hNodup
  have w4 : writeFile (FS.mk (fs.dirs ++ createdDirs) (fs.files ++ createdFiles)) (PROJECT_ROOT ++ ["README.md"]) FileContent.readmeTemplate = some (FS.mk (fs.dirs ++ createdDirs) (fs.files ++ createdFiles)) :=
    writeFile_same
      (not_mem_append_of (hnd _ (List.prefix_append _ _)) (by decide))
      (List.mem_append_right _ (by decide))
      (List.mem_append_right _ (by decide))
      hNodup
  have w5 : writeFile (FS.mk (fs.dirs ++ createdDirs) (fs.files ++ createdFiles)) (PROJECT_ROOT ++ ["shaders", "globe_vertex.glsl"]) FileContent.vertexShaderStub = some (FS.mk (fs.dirs ++ createdDirs) (fs.files ++ createdFiles)) :=
    writeFile_same
      (not_mem_append_of (hnd _ (List.prefix_append _ _)) (by decide))
      (List.mem_append_right _ (by decide))
      (List.mem_append_right _ (by decide))
      hNodup
  have w6 : writeFile (FS.mk (fs.dirs ++ createdDirs) (fs.files ++ createdFiles)) (PROJECT_ROOT ++ ["shaders", "globe_fragment.glsl"]) FileContent.fragmentShaderStub = some (FS.mk (fs.dirs ++ createdDirs) (fs.files ++ createdFiles)) :=
    writeFile_same
      (not_mem_append_of (hnd _ (List.prefix_append _ _)) (by decide))
      (List.mem_append_right _ (by decide))
      (List.mem_append_right _ (by decide))
      hNodup
  have w7 : writeFile (FS.mk (fs.dirs ++ createdDirs) (fs.files ++ createdFiles)) (PROJECT_ROOT ++ [".gitignore"]) FileContent.gitignoreText = some (FS.mk (fs.dirs ++ createdDirs) (fs.files ++ createdFiles)) :=
    writeFile_same
      (not_mem_append_of (hnd _ (List.prefix_append _ _)) (by decide))
      (List.mem_append_right _ (by decide))
      (List.mem_append_right _ (by decide))
      hNodup
  simp only [create_project_structure, p0, m0, m1, m2, m3, m4, m5, m6, m7,
    w0, w1, w2, w3, w4, w5, w6, w7, DIRECTORIES,
    List.foldlM_cons, List.foldlM_nil,
    Option.bind_eq_bind, Option.some_bind, Option.pure_def]

/-- C10: `create_project_structure` is idempotent on the filesystem: on a
valid filesystem with the project root absent, the first run succeeds, a
second run also succeeds, and the state after two runs is identical to the
state after one run. -/
theorem create_project_structure_idempotent (fs : FS) (hV : fs.Valid)
    (hD : ["D:"] ∈ fs.dirs) (hDP : ["D:", "Projects"] ∈ fs.dirs)
    (hR : PROJECT_ROOT ∉ fs.dirs) (hRf : PROJECT_ROOT ∉ fs.fileNames) :
    (create_project_structure fs).isSome = true ∧
    (create_project_structure fs).bind create_project_structure =
      create_project_structure fs := by
  rw [create_project_structure_run hV hD hDP hR hRf]
  refine ⟨rfl, ?_⟩
  rw [Option.some_bind]
  exact create_project_structure_stable hV hD hDP hR hRf

/-- Witness for C10 on the two-ancestor empty filesystem. -/
theorem create_project_structure_idempotent_witness :
    (create_project_structure (FS.mk [["D:"], ["D:", "Projects"]] [])).isSome
        = true ∧
    (create_project_structure
        (FS.mk [["D:"], ["D:", "Projects"]] [])).bind
        create_project_structure =
      create_project_structure (FS.mk [["D:"], ["D:", "Projects"]] []) :=
  create_project_structure_idempotent _
    ⟨by decide, by decide, by decide, by decide, by decide⟩
    (by decide) (by decide) (by decide) (by decide)
